import Mathlib

/-!
Verification development for the infinity-space backend core
(`backend/src/services/analyzer.js` and `backend/src/ws.js`).

The JavaScript source is shallowly embedded: the canonical item record is a
typed structure mirroring `createEmptyRecord`, the merge-and-normalization
steps of `analyzeAndStore` (lines 361-531) are pure functions over it, the
regular-expression heuristics are hand-rolled matchers with the same
leftmost/greedy/word-boundary semantics, and the operation ledger of `ws.js`
is an insertion-ordered association list (matching JS `Map` iteration order).
External stdlib calls (`Date.toISOString`, `JSON.parse`) are modelled as
abstract inputs or abstract injective functions, as noted at each site.
-/

/-- `UNKNOWN_VALUE` constant of analyzer.js. -/
def UNKNOWN_VALUE : String := "UNKNOWN"

/-- `SCHEMA_VERSION` constant of analyzer.js. -/
def SCHEMA_VERSION : Nat := 1

/-- JS `\w` word-character class `[A-Za-z0-9_]` (ASCII, as produced here). -/
def isWordChar (c : Char) : Bool := c.isAlphanum || c == '_'

/-- Character class `[A-Z0-9]` used by the batch-code regex. -/
def isUpperAlnum (c : Char) : Bool := c.isUpper || c.isDigit

/-- JS `\s` on the ASCII range (the texts handled here are ASCII). -/
def isSpaceChar (c : Char) : Bool := c == ' ' || c == '\t' || c == '\n' || c == '\r'

/-- JS `String.trim` (whitespace on the ASCII range handled here). -/
def jsTrim (s : String) : String :=
  (((s.data.dropWhile isSpaceChar).reverse.dropWhile isSpaceChar).reverse).asString

/-- JS `String.toUpperCase` (ASCII). -/
def jsToUpper (s : String) : String := (s.data.map Char.toUpper).asString

/-- JS `Number` on the non-negative decimal digit strings produced by the
numeric-pair matcher (`Number('') = 0` is handled by the caller). -/
def decToNat? (s : String) : Option Nat :=
  if s.data ≠ [] ∧ s.data.all Char.isDigit then
    some (s.data.foldl (fun acc c => acc * 10 + (c.toNat - '0'.toNat)) 0)
  else none

/-- `listStartsWith h n`: `n` is a prefix of `h` (JS `String.startsWith`). -/
def listStartsWith : List Char → List Char → Bool
  | _, [] => true
  | [], _ :: _ => false
  | a :: as, b :: bs => a == b && listStartsWith as bs

/-- Helper for JS `String.includes`: does the needle occur in the haystack? -/
def listIncludesAux (n : List Char) : List Char → Bool
  | [] => n.isEmpty
  | c :: t => listStartsWith (c :: t) n || listIncludesAux n t

/-- JS `String.includes`. -/
def strIncludes (s sub : String) : Bool := listIncludesAux sub.data s.data

/-- Deduplication keeping first occurrences, with an accumulator of already
seen elements: models JS `Array.from(new Set(list))` (`Set` keeps insertion
order and drops later duplicates). -/
def nubAux (seen : List String) : List String → List String
  | [] => []
  | x :: xs => if seen.contains x then nubAux seen xs else x :: nubAux (x :: seen) xs

/-- `Array.from(new Set(l))`. -/
def nubStr (l : List String) : List String := nubAux [] l

/-- Test for `/[A-Z]-[A-Z]/` (analyzer.js line 425): some position holds an
uppercase letter, a hyphen, then an uppercase letter. -/
def hasUpperHyphenUpper : List Char → Bool
  | a :: b :: c :: rest => (a.isUpper && b == '-' && c.isUpper) || hasUpperHyphenUpper (b :: c :: rest)
  | _ => false

/-- Numerator part of `/\b(\d{1,2})\/(\d{1,2})\b/`: one or two digits followed
by the slash (greedy, two digits first, mirroring the regex backtracking).
Returns the digit characters and the remainder after the slash. -/
def takeNumerator : List Char → Option (List Char × List Char)
  | a :: b :: rest =>
    if a.isDigit then
      if b.isDigit then
        match rest with
        | '/' :: rest2 => some ([a, b], rest2)
        | _ => none
      else if b == '/' then some ([a], rest) else none
    else none
  | _ => none

/-- Denominator part `(\d{1,2})\b`: one or two digits followed by a word
boundary (end of text or a non-word character). Greedy, two digits first; the
one-digit backtrack can only succeed when the following character is not a
word character, which a second digit never satisfies. -/
def takeDenominator : List Char → Option (List Char × List Char)
  | [] => none
  | [c] => if c.isDigit then some ([c], []) else none
  | c :: d :: rest =>
    if c.isDigit then
      if d.isDigit then
        match rest with
        | [] => some ([c, d], [])
        | e :: _ => if isWordChar e then none else some ([c, d], rest)
      else if isWordChar d then none
      else some ([c], d :: rest)
    else none

/-- One attempt of `/\b(\d{1,2})\/(\d{1,2})\b/` at the current position (the
left boundary is checked by the caller: the first matched character is a
digit, so `\b` holds exactly when the previous character is not a word
character). Returns the matched characters and the rest of the text. -/
def matchPairAt (l : List Char) : Option (List Char × List Char) :=
  match takeNumerator l with
  | none => none
  | some (num, r1) =>
    match takeDenominator r1 with
    | none => none
    | some (den, r2) => some (num ++ '/' :: den, r2)

/-- `text.match(/\b(\d{1,2})\/(\d{1,2})\b/g)`: all non-overlapping matches,
scanning left to right; after a match the scan resumes past it (the previous
character is then a digit, a word character). `fuel` bounds the recursion and
is instantiated with the text length plus one. -/
def scanPairsAux : Nat → Bool → List Char → List String
  | 0, _, _ => []
  | _ + 1, _, [] => []
  | fuel + 1, prevWord, c :: rest =>
    if prevWord then scanPairsAux fuel (isWordChar c) rest
    else
      match matchPairAt (c :: rest) with
      | some (m, r) => m.asString :: scanPairsAux fuel true r
      | none => scanPairsAux fuel (isWordChar c) rest

/-- All matches of the numeric-pair regex in one text. -/
def scanPairs (t : String) : List String := scanPairsAux (t.data.length + 1) false t.data

/-- The star part `(?:\s?[A-Z0-9]+)*` of the batch-code regex: greedily
consume groups of an optional single whitespace followed by a run of
uppercase alphanumerics. Returns the consumed characters. -/
def batchStarPart : Nat → List Char → List Char
  | 0, _ => []
  | _ + 1, [] => []
  | fuel + 1, c :: rest =>
    if isUpperAlnum c then
      let p := (c :: rest).span isUpperAlnum
      p.1 ++ batchStarPart fuel p.2
    else if isSpaceChar c then
      let p := rest.span isUpperAlnum
      if p.1.length ≥ 1 then (c :: p.1) ++ batchStarPart fuel p.2 else []
    else []

/-- One attempt of `/[A-Z0-9]{2,}-[A-Z0-9]+(?:\s?[A-Z0-9]+)*/` at the current
position. `[A-Z0-9]{2,}` can only be followed by `-` at its maximal run (all
shorter backtracks face another `[A-Z0-9]`), so the greedy run is decisive. -/
def matchBatchAt (l : List Char) : Option (List Char) :=
  let p1 := l.span isUpperAlnum
  if p1.1.length ≥ 2 then
    match p1.2 with
    | '-' :: rest2 =>
      let p2 := rest2.span isUpperAlnum
      if p2.1.length ≥ 1 then
        some (p1.1 ++ '-' :: p2.1 ++ batchStarPart (p2.2.length + 1) p2.2)
      else none
    | _ => none
  else none

/-- Leftmost match of the batch-code regex in a text (`text.match(re)[0]`). -/
def batchFirstAux : Nat → List Char → Option (List Char)
  | 0, _ => none
  | _ + 1, [] => none
  | fuel + 1, c :: rest =>
    match matchBatchAt (c :: rest) with
    | some m => some m
    | none => batchFirstAux fuel rest

/-- First match of the batch-code regex in a text, as a string. -/
def batchFirst (t : String) : Option String :=
  (batchFirstAux (t.data.length + 1) t.data).map List.asString

/-- `ocr.entities` entry (analyzer.js lines 376-381). -/
structure OcrEntity where
  category : String
  text : String
  confidence : Option Int
  side : String
deriving DecidableEq, Repr

/-- `media` entry (analyzer.js lines 458-466). -/
structure MediaEntry where
  side : String
  file_name : String
  s3_key : String
  content_type : String
  captured_at : String
  source_model : String
  confidence : Int
deriving DecidableEq, Repr

/-- The structured payload returned by the vision model, as read by
analyzer.js (fields `detected_text`, `car_name`, `series`, `batch_code`,
`subset_number`, `additional_text`; other properties are never read). A
`none` entry of `detected_text` models a non-string array element. -/
structure ParsedAnalysis where
  detected_text : Option (List (Option String))
  car_name : Option String
  series : Option String
  batch_code : Option String
  subset_number : Option String
  additional_text : Option (List String)
deriving DecidableEq, Repr

/-- `item` section. -/
structure ItemSection where
  line : String
  series : String
  model : String
  description : String
deriving DecidableEq, Repr

/-- `packaging` section. -/
structure PackagingSection where
  global_assortment_number : String
  subset_number : String
  guarantee_badge : String
  card_front_logo : String
deriving DecidableEq, Repr

/-- `codes` section. -/
structure CodesSection where
  upc : String
  assortment : String
  internal_code : String
  batch_code : String
  country_of_origin : String
  region : String
deriving DecidableEq, Repr

/-- `branding` section. -/
structure BrandingSection where
  brand : String
  websites : List String
deriving DecidableEq, Repr

/-- `compliance` section. -/
structure ComplianceSection where
  age_warning : String
  standards : List String
  recycling : String
  warranty : String
  warnings : List String
deriving DecidableEq, Repr

/-- `vehicle` section. -/
structure VehicleSection where
  make : String
  base_model : String
  condition : String
deriving DecidableEq, Repr

/-- `visual.body_color_primary` value. -/
structure ColorValue where
  norm : String
  raw : String
  confidence : Int
  source : String
deriving DecidableEq, Repr

/-- `visual.graphics` value. -/
structure GraphicsInfo where
  style : String
  text_elements : List String
  locations : List String
deriving DecidableEq, Repr

/-- `visual.wheels` value. -/
structure WheelsInfo where
  style : String
  rim_color : String
  tire_color : String
  notes : String
deriving DecidableEq, Repr

/-- `visual` section. -/
structure VisualSection where
  body_color_primary : ColorValue
  body_color_secondary : List String
  graphics : GraphicsInfo
  wheels : WheelsInfo
deriving DecidableEq, Repr

/-- `inventory` section. -/
structure InventorySection where
  location : String
  status : String
  owner : String
deriving DecidableEq, Repr

/-- `ocr` section. -/
structure OcrSection where
  raw_text : List String
  entities : List OcrEntity
deriving DecidableEq, Repr

/-- `scan` section. -/
structure ScanSection where
  scan_id : String
  request_id : String
  scanned_at : String
deriving DecidableEq, Repr

/-- The `extra.raw_response` envelope written at analyzer.js lines 494-499. -/
structure RawResponse where
  id : String
  model : String
  output : Option ParsedAnalysis
  raw_text : String
deriving DecidableEq, Repr

/-- `extra` section: the raw-passthrough bags keyed by capture side (`none`
models the initial empty object `{}`), the always-overwritten
`raw_response` envelope, and the optional `finalUrl`. -/
structure ExtraSection where
  raw_front : Option ParsedAnalysis
  raw_back : Option ParsedAnalysis
  raw_other : Option ParsedAnalysis
  raw_response : Option RawResponse
  finalUrl : Option String
deriving DecidableEq, Repr

/-- `meta` section. -/
structure MetaSection where
  schema_version : Nat
  created_at : String
  updated_at : String
deriving DecidableEq, Repr

/-- The canonical item record (`createEmptyRecord`, analyzer.js lines
76-159). Records produced or consumed by the engine are schema-complete, so
the dynamic object is modelled by this closed structure; the
`obsoleteTopLevelKeys` deletion pass (lines 504-529) is a no-op on
schema-complete records and has no counterpart here. -/
structure Record where
  id : String
  item : ItemSection
  packaging : PackagingSection
  codes : CodesSection
  branding : BrandingSection
  compliance : ComplianceSection
  vehicle : VehicleSection
  visual : VisualSection
  inventory : InventorySection
  ocr : OcrSection
  media : List MediaEntry
  scan : ScanSection
  extra : ExtraSection
  meta : MetaSection
deriving DecidableEq, Repr

/-- `createEmptyRecord(id)` (analyzer.js lines 76-159). -/
def createEmptyRecord (id : String) : Record :=
  { id := id
    item := { line := "", series := "", model := "", description := "" }
    packaging := { global_assortment_number := "", subset_number := "", guarantee_badge := "", card_front_logo := "" }
    codes := { upc := "", assortment := "", internal_code := "", batch_code := "", country_of_origin := "", region := "" }
    branding := { brand := "", websites := [] }
    compliance := { age_warning := "", standards := [], recycling := "", warranty := "", warnings := [] }
    vehicle := { make := "", base_model := "", condition := "" }
    visual := { body_color_primary := { norm := "", raw := "", confidence := 0, source := "" },
                body_color_secondary := [],
                graphics := { style := "", text_elements := [], locations := [] },
                wheels := { style := "", rim_color := "", tire_color := "", notes := "" } }
    inventory := { location := "", status := "", owner := "" }
    ocr := { raw_text := [], entities := [] }
    media := []
    scan := { scan_id := id, request_id := "", scanned_at := "" }
    extra := { raw_front := none, raw_back := none, raw_other := none, raw_response := none, finalUrl := none }
    meta := { schema_version := SCHEMA_VERSION, created_at := "", updated_at := "" } }

/-- The per-field fix of `ensurePlaceholder` (analyzer.js lines 161-172): a
string that trims to empty becomes the placeholder sentinel. -/
def pf (s : String) : String := if jsTrim s = "" then UNKNOWN_VALUE else s

/-- `ensurePlaceholders` (analyzer.js lines 174-204): applies the placeholder
fix to exactly the 25 declared `placeholderPaths`. -/
def ensurePlaceholders (r : Record) : Record :=
  { r with
    item := { line := pf r.item.line, series := pf r.item.series,
              model := pf r.item.model, description := pf r.item.description }
    packaging := { global_assortment_number := pf r.packaging.global_assortment_number,
                   subset_number := pf r.packaging.subset_number,
                   guarantee_badge := pf r.packaging.guarantee_badge,
                   card_front_logo := pf r.packaging.card_front_logo }
    codes := { upc := pf r.codes.upc, assortment := pf r.codes.assortment,
               internal_code := pf r.codes.internal_code, batch_code := pf r.codes.batch_code,
               country_of_origin := pf r.codes.country_of_origin, region := pf r.codes.region }
    branding := { r.branding with brand := pf r.branding.brand }
    compliance := { r.compliance with
                    age_warning := pf r.compliance.age_warning,
                    recycling := pf r.compliance.recycling, warranty := pf r.compliance.warranty }
    vehicle := { make := pf r.vehicle.make, base_model := pf r.vehicle.base_model,
                 condition := pf r.vehicle.condition }
    inventory := { r.inventory with location := pf r.inventory.location, status := pf r.inventory.status }
    scan := { r.scan with request_id := pf r.scan.request_id, scanned_at := pf r.scan.scanned_at } }

/-- The fixed observation input of one merge run: the request parameters, the
metadata of the fetched blob, and the (already parsed) AI payload together
with the inference envelope data. This is everything steps 2-8 of the engine
read besides the existing record and the clock. -/
structure Observation where
  key : String
  scanId : String
  camera : Int
  timestamp : Option Int
  metaTimestamp : Option Int
  contentType : String
  fileName : Option String
  extraFileName : Option String
  extraRequestId : Option String
  extraFinalUrl : Option String
  metaRequestId : Option String
  metaAmzRequestId : Option String
  parsed : Option ParsedAnalysis
  responseId : String
  outputText : String
  modelName : String
deriving DecidableEq, Repr

/-- `v?.trim() || ''` on an optional string field of the parsed payload. -/
def trimOr (v : Option String) : String :=
  match v with
  | some s => jsTrim s
  | none => ""

/-- `Array.isArray(p?.detected_text) ? p.detected_text.map(t => typeof t ===
'string' ? t : '').filter(Boolean) : []` (analyzer.js lines 334-336). -/
def detectedTextOf (p : Option ParsedAnalysis) : List String :=
  match p.bind (fun pa => pa.detected_text) with
  | some l => (l.map (fun x => x.getD "")).filter (fun s => s != "")
  | none => []

/-- `Array.isArray(p?.additional_text) ? p.additional_text : []`
(analyzer.js line 367). -/
def additionalTextOf (p : Option ParsedAnalysis) : List String :=
  (p.bind (fun pa => pa.additional_text)).getD []

/-- The `analysisFields` object (analyzer.js lines 338-344). -/
structure AnalysisFields where
  carName : String
  series : String
  batchCode : String
  subsetNumber : String
  detectedText : List String
deriving DecidableEq, Repr

/-- `analysisFields` computed from the parsed payload. -/
def analysisFieldsOf (p : Option ParsedAnalysis) : AnalysisFields :=
  { carName := trimOr (p.bind (fun pa => pa.car_name))
    series := trimOr (p.bind (fun pa => pa.series))
    batchCode := trimOr (p.bind (fun pa => pa.batch_code))
    subsetNumber := trimOr (p.bind (fun pa => pa.subset_number))
    detectedText := detectedTextOf p }

/-- The deduplicated text pool (analyzer.js lines 368-370). -/
def textPoolOf (rawText : List String) (p : Option ParsedAnalysis) : List String :=
  nubStr (rawText ++ detectedTextOf p ++ additionalTextOf p)

/-- `findMultipleMatches(/\b(\d{1,2})\/(\d{1,2})\b/g)` (analyzer.js lines
394-404, applied at line 406): all matches across the pool, deduplicated in
insertion order; empty texts are skipped. -/
def findMultipleMatchesPairs (textPool : List String) : List String :=
  nubStr ((textPool.filter (fun t => t != "")).map scanPairs).flatten

/-- `findTextMatch(/[A-Z0-9]{2,}-[A-Z0-9]+(?:\s?[A-Z0-9]+)*/)` (analyzer.js
lines 385-392, applied at line 417): the first match of the first non-empty
text that has one, else the empty string. -/
def findTextMatch : List String → String
  | [] => ""
  | t :: rest =>
    if t = "" then findTextMatch rest
    else
      match batchFirst t with
      | some m => m
      | none => findTextMatch rest

/-- JS `String.split(sep)` for a single-character separator. -/
def splitOnCharAux (sep : Char) : List Char → List Char → List String
  | [], cur => [cur.reverse.asString]
  | c :: rest, cur =>
    if c == sep then cur.reverse.asString :: splitOnCharAux sep rest []
    else splitOnCharAux sep rest (c :: cur)

/-- JS `s.split(sep)` (single-character separator). -/
def splitOnChar (sep : Char) (s : String) : List String := splitOnCharAux sep s.data []

/-- `Number(denom) <= 50` for the denominator of one `\d{1,2}/\d{1,2}` match
(analyzer.js lines 410-413). `Number` on the digit strings the matcher
produces is decimal parsing; `Number('') = 0` is kept for fidelity. -/
def denomLE50 (m : String) : Bool :=
  match splitOnChar '/' m with
  | [_, d] =>
    match (if d = "" then some 0 else decToNat? d) with
    | some n => n ≤ 50
    | none => false
  | _ => false

/-- `subsetNumber` (analyzer.js lines 407-413). -/
def subsetNumberOf (af : AnalysisFields) (textPool : List String) : String :=
  if af.subsetNumber ≠ "" ∧ af.subsetNumber ≠ UNKNOWN_VALUE then af.subsetNumber
  else ((findMultipleMatchesPairs textPool).find? denomLE50).getD ""

/-- `batchCode` (analyzer.js lines 415-417): the curated AI value when
non-empty and not the sentinel, else the first regex match in the pool. -/
def batchCodeOf (af : AnalysisFields) (textPool : List String) : String :=
  let a := if af.batchCode ≠ "" ∧ af.batchCode ≠ UNKNOWN_VALUE then af.batchCode else ""
  if a ≠ "" then a else findTextMatch textPool

/-- `carName` (analyzer.js lines 419-420). -/
def carNameOf (af : AnalysisFields) : String :=
  if af.carName ≠ "" ∧ af.carName ≠ UNKNOWN_VALUE then af.carName else ""

/-- `series` (analyzer.js lines 422-425). -/
def seriesOf (af : AnalysisFields) (textPool : List String) : String :=
  if af.series ≠ "" ∧ af.series ≠ UNKNOWN_VALUE then af.series
  else (textPool.find? (fun t => hasUpperHyphenUpper t.data || strIncludes (jsToUpper t) "IMPORTS")).getD ""

/-- The guarded field write shared by the four extraction targets
(analyzer.js lines 427-441): write `v` only when it is non-empty and the
current value is empty or the placeholder sentinel. -/
def mergeField (v x : String) : String :=
  if v ≠ "" ∧ (x = "" ∨ x = UNKNOWN_VALUE) then v else x

/-- The four extraction/AI-field writes (analyzer.js lines 427-441). -/
def applyExtractions (r : Record) (carName series batchCode subsetNumber : String) : Record :=
  { r with
    item := { r.item with
              model := mergeField carName r.item.model,
              series := mergeField series r.item.series }
    codes := { r.codes with batch_code := mergeField batchCode r.codes.batch_code }
    packaging := { r.packaging with subset_number := mergeField subsetNumber r.packaging.subset_number } }

/-- JS `Map` keyed by entity text, as an insertion-ordered association list.
`set` on a present key updates the value in place; on an absent key it
appends. -/
def mapInsert (m : List (String × OcrEntity)) (kv : String × OcrEntity) : List (String × OcrEntity) :=
  if m.any (fun p => p.1 == kv.1) then m.map (fun p => if p.1 == kv.1 then kv else p)
  else m ++ [kv]

/-- `new Map(entities.map(e => [e.text, e]))` (analyzer.js line 373). -/
def buildEntityMap (es : List OcrEntity) : List (String × OcrEntity) :=
  es.foldl (fun m e => mapInsert m (e.text, e)) []

/-- The `detectedText.forEach` loop (analyzer.js lines 374-382): add a
default entity for each non-empty text not already in the map. -/
def addDetected (m : List (String × OcrEntity)) (texts : List String) : List (String × OcrEntity) :=
  texts.foldl
    (fun m t =>
      if t = "" ∨ m.any (fun p => p.1 == t) then m
      else m ++ [(t, { category := "", text := t, confidence := none, side := "" })])
    m

/-- `record.ocr.entities` after the union (analyzer.js lines 373-383). -/
def mergeEntities (es : List OcrEntity) (texts : List String) : List OcrEntity :=
  (addDetected (buildEntityMap es) texts).map (fun p => p.2)

/-- `sideMap[resolvedCamera] ?? 'cam-' + resolvedCamera` (analyzer.js lines
443-447). -/
def sideOf (camera : Int) : String :=
  if camera = 1 then "front" else if camera = 2 then "back" else "cam-" ++ toString camera

/-- Stand-in for `new Date(ms).toISOString()`: an abstract injective encoding
of the millisecond timestamp. None of the verified properties depend on the
ISO format itself, only on this being a fixed function of `ms`. -/
def isoOfMillis (ms : Int) : String := toString ms

/-- `capturedIso` (analyzer.js lines 449-456): `resolvedTimestamp ??
parseNumber(metadata.timestamp)` when present, otherwise the clock. The
string/NaN branches are unreachable here because timestamps are numbers. -/
def capturedIsoOf (o : Observation) (nowIso2 : String) : String :=
  match (match o.timestamp with | some n => some n | none => o.metaTimestamp) with
  | some n => isoOfMillis n
  | none => nowIso2

/-- The media entry of this capture (analyzer.js lines 458-466). -/
def mediaEntryOf (o : Observation) (capturedIso : String) : MediaEntry :=
  { side := sideOf o.camera
    file_name := match o.fileName with
                 | some f => f
                 | none => o.extraFileName.getD ""
    s3_key := o.key
    content_type := o.contentType
    captured_at := capturedIso
    source_model := o.modelName
    confidence := 0 }

/-- Media append unless an entry with the same blob key exists (analyzer.js
lines 468-471). -/
def mergeMedia (l : List MediaEntry) (key : String) (e : MediaEntry) : List MediaEntry :=
  if l.any (fun m => m.s3_key == key) then l else l ++ [e]

/-- `a || b` for an optional string `a` against default `b` (the
`metadata['request-id'] || ... || UNKNOWN_VALUE` chain, analyzer.js lines
477-483). -/
def jsOrD (a : Option String) (b : String) : String :=
  match a with
  | some s => if s = "" then b else s
  | none => b

/-- The request-id fallback chain (analyzer.js lines 478-482). -/
def requestIdOf (o : Observation) : String :=
  jsOrD o.metaRequestId (jsOrD o.metaAmzRequestId (jsOrD o.extraRequestId UNKNOWN_VALUE))

/-- `x || y` on strings (`record.meta.created_at || nowIso`). -/
def jsOrStr (x y : String) : String := if x = "" then y else x

/-- Fill a field only when it is empty or the sentinel (`!x || x ===
UNKNOWN_VALUE` guards of analyzer.js lines 474-483). -/
def fillIfUnknown (x v : String) : String :=
  if x = "" ∨ x = UNKNOWN_VALUE then v else x

/-- The raw-passthrough and envelope writes on `extra` (analyzer.js lines
489-502): the camera-selected raw bag and `raw_response` are full replaces;
`finalUrl` is written only when truthy. -/
def extraUpdate (e : ExtraSection) (o : Observation) : ExtraSection :=
  let e1 :=
    if o.camera = 2 then { e with raw_back := o.parsed }
    else if o.camera = 1 then { e with raw_front := o.parsed }
    else { e with raw_other := o.parsed }
  let env : RawResponse :=
    { id := o.responseId, model := o.modelName, output := o.parsed, raw_text := o.outputText }
  let e2 := { e1 with raw_response := some env }
  match o.extraFinalUrl with
  | some u => if u ≠ "" then { e2 with finalUrl := some u } else e2
  | none => e2

/-- Steps 2-8 of the merge-and-normalization engine (analyzer.js lines
366-531), as one pure function of the loaded record, the observation input
and the two clock reads (`nowIso` at line 366 and the `new Date()` of line
456). -/
def mergeObservation (r : Record) (o : Observation) (nowIso nowIso2 : String) : Record :=
  let af := analysisFieldsOf o.parsed
  let textPool := textPoolOf r.ocr.raw_text o.parsed
  let entities := mergeEntities r.ocr.entities af.detectedText
  let capturedIso := capturedIsoOf o nowIso2
  let r1 := { r with ocr := { raw_text := textPool, entities := entities } }
  let r2 := applyExtractions r1 (carNameOf af) (seriesOf af textPool)
    (batchCodeOf af textPool) (subsetNumberOf af textPool)
  let r3 := { r2 with
    media := mergeMedia r2.media o.key (mediaEntryOf o capturedIso)
    scan := { scan_id := o.scanId
              request_id := fillIfUnknown r2.scan.request_id (requestIdOf o)
              scanned_at := fillIfUnknown r2.scan.scanned_at capturedIso }
    meta := { schema_version := SCHEMA_VERSION
              created_at := jsOrStr r2.meta.created_at nowIso
              updated_at := nowIso }
    extra := extraUpdate r2.extra o }
  ensurePlaceholders r3

/-- `MAX_OPERATIONS` constant of ws.js. -/
def MAX_OPERATIONS : Nat := 50

/-- `OPERATION_TTL_MS` constant of ws.js (`1000 * 60 * 15`). -/
def OPERATION_TTL_MS : Int := 1000 * 60 * 15

/-- The recorded status-event payload, as far as the ledger inspects it: the
stage name and the auxiliary data (abstracted to an optional string). -/
structure EventPayload where
  event : String
  data : Option String
deriving DecidableEq, Repr

/-- One ledger operation entry (ws.js line 29). -/
structure OpEntry where
  scan : String
  events : List EventPayload
  status : String
  updatedAt : Int
  result : Option String
deriving DecidableEq, Repr

/-- The ledger: the `operations` JS `Map`, as an insertion-ordered
association list with distinct keys (a `Map.set` on a present key keeps its
position). -/
abbrev Ledger := List (String × OpEntry)

/-- The loop body of `pruneOperations` (ws.js lines 17-24): each entry is
visited in insertion order and deleted when it is older than the cutoff or
the map still holds more than `MAX_OPERATIONS * 2` entries at that moment.
`kept` counts the already visited entries that survived, so the current map
size is `kept + 1 +` the number of unvisited entries. -/
def pruneGo (cutoff : Int) : Nat → Ledger → Ledger
  | _, [] => []
  | kept, e :: rest =>
    if e.2.updatedAt < cutoff ∨ kept + 1 + rest.length > MAX_OPERATIONS * 2 then
      pruneGo cutoff kept rest
    else e :: pruneGo cutoff (kept + 1) rest

/-- `pruneOperations()` (ws.js lines 17-24), with the clock explicit. -/
def pruneOperations (now : Int) (ops : Ledger) : Ledger :=
  pruneGo (now - OPERATION_TTL_MS) 0 ops

/-- `operations.get(scan)` on the association-list ledger. -/
def ledgerGet (ops : Ledger) (scan : String) : Option OpEntry :=
  (ops.find? (fun p => p.1 == scan)).map (fun p => p.2)

/-- `operations.set(scan, entry)`: update in place when present, else
append. -/
def ledgerSet (ops : Ledger) (scan : String) (entry : OpEntry) : Ledger :=
  if ops.any (fun p => p.1 == scan) then
    ops.map (fun p => if p.1 == scan then (scan, entry) else p)
  else ops ++ [(scan, entry)]

/-- `recordOperationEvent(scan, eventPayload)` (ws.js lines 26-38), with the
clock explicit. A falsy identifier returns the ledger unchanged. -/
def recordOperationEvent (now : Int) (scan : String) (ev : EventPayload) (ops : Ledger) : Ledger :=
  if scan = "" then ops
  else
    let ops1 := pruneOperations now ops
    let entry := (ledgerGet ops1 scan).getD
      { scan := scan, events := [], status := "pending", updatedAt := now, result := none }
    let entry1 := { entry with events := entry.events ++ [ev], updatedAt := now }
    let entry2 := { entry1 with status := if strIncludes ev.event "error" then "error" else entry1.status }
    let entry3 :=
      if ev.event = "analysis.completed" then { entry2 with status := "completed", result := ev.data }
      else entry2
    ledgerSet ops1 scan entry3

/-- Metadata of the fetched S3 object, as read by analyzer.js (lines
256-259 and 477-483). `metadata.camera` is never consulted because the
`camera` parameter always carries a number (default 1). -/
structure S3Meta where
  timestamp : Option Int
  requestId : Option String
  amzRequestId : Option String
deriving DecidableEq, Repr

/-- One content item of an inference output item: an object carrying an
already-parsed payload, or carrying a text whose `JSON.parse` outcome is
recorded (`some r`: the text is a string parsing to `r`; the inner `none`
models a parse failure, handled as `null`), or carrying neither. -/
structure ContentPart where
  parsed : Option ParsedAnalysis
  textParse : Option (Option ParsedAnalysis)
deriving DecidableEq, Repr

/-- One entry of `response.output`. -/
structure OutputItem where
  content : Option (List ContentPart)
deriving DecidableEq, Repr

/-- The inference response as read by analyzer.js (lines 306-332):
`output_parsed`, the `output` items, and `output_text` with the outcome of
`JSON.parse(outputText)` recorded alongside (JSON parsing is external). -/
structure AiResponse where
  id : String
  output_parsed : Option ParsedAnalysis
  output : Option (List OutputItem)
  output_text : Option String
  outputTextParse : Option ParsedAnalysis
deriving DecidableEq, Repr

/-- `content?.parsed`, else the parse of a textual content, else null
(analyzer.js lines 311-321). -/
def contentParses (c : ContentPart) : Option ParsedAnalysis :=
  match c.parsed with
  | some p => some p
  | none =>
    match c.textParse with
    | some r => r
    | none => none

/-- `item?.content?.map(...).filter(Boolean) ?? []` (analyzer.js lines
310-322). -/
def itemParses (it : OutputItem) : List ParsedAnalysis :=
  (it.content.getD []).filterMap contentParses

/-- `response.output_parsed ?? response.output?.flatMap(...)?.[0] ?? null`
(analyzer.js lines 307-324). -/
def structuredParseOf (resp : AiResponse) : Option ParsedAnalysis :=
  match resp.output_parsed with
  | some p => some p
  | none =>
    match resp.output with
    | some items => ((items.map itemParses).flatten).head?
    | none => none

/-- `response.output_text ?? ''` (analyzer.js line 306). -/
def outputTextOf (resp : AiResponse) : String := resp.output_text.getD ""

/-- The full parse chain including the `JSON.parse(outputText)` fallback
(analyzer.js lines 306-332). -/
def parsedAnalysisOf (resp : AiResponse) : Option ParsedAnalysis :=
  match structuredParseOf resp with
  | some p => some p
  | none => if outputTextOf resp ≠ "" then resp.outputTextParse else none

/-- The request parameters of one `analyzeAndStore` invocation (after the
signature defaults of analyzer.js lines 206-217 are applied). -/
structure RequestInput where
  key : String
  scanId : String
  camera : Int
  timestamp : Option Int
  contentType : String
  fileName : Option String
  extraFileName : Option String
  extraRequestId : Option String
  extraFinalUrl : Option String
deriving DecidableEq, Repr

/-- Outcome of the S3 fetch: a transport error, a response without a body,
or a response with a body and metadata. -/
inductive FetchOutcome where
  | transportFail : FetchOutcome
  | okNoBody : FetchOutcome
  | okBody : S3Meta → FetchOutcome
deriving DecidableEq, Repr

/-- Outcome of the OpenAI call. -/
inductive AiOutcome where
  | fail : AiOutcome
  | ok : AiResponse → AiOutcome
deriving DecidableEq, Repr

/-- Outcome of the DynamoDB `GetCommand`. -/
inductive DbGetOutcome where
  | fail : DbGetOutcome
  | ok : Option Record → DbGetOutcome
deriving DecidableEq, Repr

/-- The collaborator outcomes and clock readings of one invocation. -/
structure PipeEnv where
  fetch : FetchOutcome
  ai : AiOutcome
  dbGet : DbGetOutcome
  dbPutOk : Bool
  nowIso : String
  nowIso2 : String
deriving DecidableEq, Repr

/-- The error classes an invocation can throw: the S3 transport error, the
`Object body not found` error carrying `status = 404`, the OpenAI error, and
the two DynamoDB errors. -/
inductive PipeErr where
  | fetchTransport : PipeErr
  | fetchNoBody404 : PipeErr
  | aiFail : PipeErr
  | dbReadFail : PipeErr
  | dbWriteFail : PipeErr
deriving DecidableEq, Repr

/-- The object returned by a successful invocation (analyzer.js lines
552-562). -/
structure PipeOutput where
  id : String
  key : String
  scanId : String
  modelName : String
  responseId : String
  record : Record
  analysis : Option ParsedAnalysis
  raw : String
  storedAt : String
deriving DecidableEq, Repr

/-- Decidable equality for `Except` results, used to evaluate outcome
equalities on concrete invocations. -/
instance instDecEqExcept {ε α : Type} [DecidableEq ε] [DecidableEq α] :
    DecidableEq (Except ε α) := fun a b =>
  match a, b with
  | .ok x, .ok y =>
    if h : x = y then .isTrue (by rw [h]) else .isFalse (fun he => by cases he; exact h rfl)
  | .error x, .error y =>
    if h : x = y then .isTrue (by rw [h]) else .isFalse (fun he => by cases he; exact h rfl)
  | .ok _, .error _ => .isFalse (fun he => by cases he)
  | .error _, .ok _ => .isFalse (fun he => by cases he)

/-- The observable result of one invocation: the emitted status-event
stages in order, whether the record store was read or written, the record a
successful put stored, and the return/throw outcome. -/
structure PipeResult where
  events : List String
  dbRead : Bool
  dbWrite : Bool
  stored : Option Record
  outcome : Except PipeErr PipeOutput
deriving DecidableEq, Repr

/-- The observation handed to the merge steps, assembled from the request,
the S3 metadata and the inference response (analyzer.js lines 254-344). -/
def observationOf (req : RequestInput) (meta : S3Meta) (resp : AiResponse)
    (cfgModel : String) (parsed : Option ParsedAnalysis) : Observation :=
  { key := req.key
    scanId := req.scanId
    camera := req.camera
    timestamp := req.timestamp
    metaTimestamp := meta.timestamp
    contentType := req.contentType
    fileName := req.fileName
    extraFileName := req.extraFileName
    extraRequestId := req.extraRequestId
    extraFinalUrl := req.extraFinalUrl
    metaRequestId := meta.requestId
    metaAmzRequestId := meta.amzRequestId
    parsed := parsed
    responseId := resp.id
    outputText := outputTextOf resp
    modelName := cfgModel }

/-- `analyzeAndStore` (analyzer.js lines 206-563) over the collaborator
outcomes: the stage events in emission order, the store interactions, and
the returned or thrown result. The `deepMerge(createEmptyRecord(scan),
existing)` load of lines 361-364 replaces every leaf of the skeleton with
the stored value when a schema-complete record exists, so it is the stored
record itself here. -/
def analyzeAndStore (req : RequestInput) (cfgModel : String) (env : PipeEnv) : PipeResult :=
  let ev0 := ["analysis.started", "analysis.s3.fetch.start"]
  match env.fetch with
  | .transportFail =>
    { events := ev0 ++ ["analysis.s3.fetch.error"], dbRead := false, dbWrite := false,
      stored := none, outcome := .error .fetchTransport }
  | .okNoBody =>
    { events := ev0 ++ ["analysis.s3.fetch.success", "analysis.s3.fetch.error"],
      dbRead := false, dbWrite := false, stored := none, outcome := .error .fetchNoBody404 }
  | .okBody meta =>
    let ev1 := ev0 ++ ["analysis.s3.fetch.success", "analysis.ai.request"]
    match env.ai with
    | .fail =>
      { events := ev1 ++ ["analysis.ai.error"], dbRead := false, dbWrite := false,
        stored := none, outcome := .error .aiFail }
    | .ok resp =>
      let ev2 := ev1 ++ ["analysis.ai.success"]
      let parsed := parsedAnalysisOf resp
      match env.dbGet with
      | .fail =>
        { events := ev2, dbRead := true, dbWrite := false, stored := none,
          outcome := .error .dbReadFail }
      | .ok existing =>
        let base := match existing with
                    | some r => r
                    | none => createEmptyRecord req.scanId
        let obs := observationOf req meta resp cfgModel parsed
        let record := mergeObservation base obs env.nowIso env.nowIso2
        let ev3 := ev2 ++ ["analysis.db.write"]
        if env.dbPutOk then
          { events := ev3 ++ ["analysis.db.success", "analysis.completed"],
            dbRead := true, dbWrite := true, stored := some record,
            outcome := .ok { id := req.scanId, key := req.key, scanId := req.scanId,
                             modelName := cfgModel, responseId := resp.id, record := record,
                             analysis := parsed, raw := outputTextOf resp, storedAt := env.nowIso } }
        else
          { events := ev3 ++ ["analysis.db.error"], dbRead := true, dbWrite := false,
            stored := none, outcome := .error .dbWriteFail }

/-- The status events a subscriber observes for one `upload_complete`
request (ws.js lines 192-231 plus the catch at lines 282-285): the handler
emits `analysis.queued`, forwards every pipeline event, and then emits its
own `analysis.completed` on success or a generic `error` status on
failure. -/
def uploadCompleteEvents (req : RequestInput) (cfgModel : String) (env : PipeEnv) : List String :=
  let res := analyzeAndStore req cfgModel env
  "analysis.queued" :: res.events ++
    (match res.outcome with
     | .ok _ => ["analysis.completed"]
     | .error _ => ["error"])

/-- Well-formedness of the entity map: every value's text is its key, and
the keys are pairwise distinct. Holds for every map the engine builds. -/
def goodMap (m : List (String × OcrEntity)) : Prop :=
  (∀ p ∈ m, p.2.text = p.1) ∧ (m.map Prod.fst).Nodup

/-- `record.meta.updated_at = nowIso` alone re-stamped: the expected shape of
an idempotent re-merge. -/
def setUpdatedAt (r : Record) (t : String) : Record :=
  { r with meta := { r.meta with updated_at := t } }

/-- The well-formedness of an existing canonical record that idempotence
needs: none of the six merge-written string fields is whitespace-only
without being empty. Every record the engine outputs satisfies this (its
placeholder pass leaves no whitespace-only value in these fields), as does
the empty skeleton. -/
def RecordWF (r : Record) : Prop :=
  (jsTrim r.item.model = "" → r.item.model = "") ∧
  (jsTrim r.item.series = "" → r.item.series = "") ∧
  (jsTrim r.codes.batch_code = "" → r.codes.batch_code = "") ∧
  (jsTrim r.packaging.subset_number = "" → r.packaging.subset_number = "") ∧
  (jsTrim r.scan.scanned_at = "" → r.scan.scanned_at = "") ∧
  (jsTrim r.scan.request_id = "" → r.scan.request_id = "")

/-- Concrete observation used to instantiate the idempotence theorem. -/
def obsW : Observation :=
  { key := "uploads/h10011-front.png", scanId := "H10011", camera := 1,
    timestamp := some 1700000000000, metaTimestamp := none, contentType := "image/png",
    fileName := some "h10011-front.png", extraFileName := none, extraRequestId := none,
    extraFinalUrl := none, metaRequestId := some "req-1", metaAmzRequestId := none,
    parsed := some { detected_text := some [some "J-IMPORTS", some "4/10", some "JBB55-N9COL G1"],
                     car_name := some "Skyline GT-R", series := some "UNKNOWN",
                     batch_code := none, subset_number := none, additional_text := none },
    responseId := "resp-1", outputText := "raw", modelName := "vision-model" }

/-- The placeholder invariant over the 25 string leaves that
`ensurePlaceholders` covers: each is non-whitespace after a merge (a value
is either a non-empty, non-whitespace string or the sentinel `UNKNOWN`,
and `jsTrim v ≠ ""` states exactly that). -/
def placeholderInvariant (r : Record) : Prop :=
  jsTrim r.item.line ≠ "" ∧ jsTrim r.item.series ≠ "" ∧ jsTrim r.item.model ≠ "" ∧
  jsTrim r.item.description ≠ "" ∧
  jsTrim r.packaging.global_assortment_number ≠ "" ∧ jsTrim r.packaging.subset_number ≠ "" ∧
  jsTrim r.packaging.guarantee_badge ≠ "" ∧ jsTrim r.packaging.card_front_logo ≠ "" ∧
  jsTrim r.codes.upc ≠ "" ∧ jsTrim r.codes.assortment ≠ "" ∧ jsTrim r.codes.internal_code ≠ "" ∧
  jsTrim r.codes.batch_code ≠ "" ∧ jsTrim r.codes.country_of_origin ≠ "" ∧
  jsTrim r.codes.region ≠ "" ∧
  jsTrim r.branding.brand ≠ "" ∧
  jsTrim r.compliance.age_warning ≠ "" ∧ jsTrim r.compliance.recycling ≠ "" ∧
  jsTrim r.compliance.warranty ≠ "" ∧
  jsTrim r.vehicle.make ≠ "" ∧ jsTrim r.vehicle.base_model ≠ "" ∧ jsTrim r.vehicle.condition ≠ "" ∧
  jsTrim r.inventory.location ≠ "" ∧ jsTrim r.inventory.status ≠ "" ∧
  jsTrim r.scan.request_id ≠ "" ∧ jsTrim r.scan.scanned_at ≠ ""

/-- Observation (an empty parse outcome) used for the C2 counterexample. -/
def obsC2 : Observation :=
  { key := "uploads/h1.png", scanId := "H1", camera := 1, timestamp := some 1700000000000,
    metaTimestamp := none, contentType := "image/png", fileName := some "h1.png",
    extraFileName := none, extraRequestId := none, extraFinalUrl := none,
    metaRequestId := none, metaAmzRequestId := none, parsed := none,
    responseId := "resp-2", outputText := "", modelName := "vision-model" }

/-- Record holding curated values, used to instantiate the non-overwrite
theorem. -/
def recC3 : Record :=
  { createEmptyRecord "H2" with
    item := { line := "", series := "J-IMPORTS", model := "Skyline GT-R", description := "" }
    codes := { upc := "", assortment := "", internal_code := "", batch_code := "JBB55-N9COL G1",
               country_of_origin := "", region := "" }
    packaging := { global_assortment_number := "", subset_number := "4/10",
                   guarantee_badge := "", card_front_logo := "" } }

/-- First capture used by the C4 witness. -/
def obsC4 : Observation :=
  { key := "uploads/h3.png", scanId := "H3", camera := 1, timestamp := some 1700000000000,
    metaTimestamp := none, contentType := "image/png", fileName := some "h3.png",
    extraFileName := none, extraRequestId := none, extraFinalUrl := none,
    metaRequestId := none, metaAmzRequestId := none, parsed := none,
    responseId := "resp-3", outputText := "", modelName := "vision-model" }

/-- Re-ingestion of the same blob key, used by the C4 witness. -/
def obsC4b : Observation :=
  { obsC4 with camera := 2, timestamp := some 1700000005000, responseId := "resp-4" }

/-- A ledger of 101 fresh entries, for the C5 counterexample. -/
def opsC5 : Ledger :=
  (List.range 101).map (fun i =>
    (toString i, { scan := toString i, events := [], status := "pending",
                   updatedAt := 0, result := none }))

/-- The stage sequences the pipeline actually emits, enumerated per
collaborator outcome (the amended form of the spec's state machine). -/
def expectedTrace (env : PipeEnv) : List String :=
  match env.fetch with
  | .transportFail => ["analysis.started", "analysis.s3.fetch.start", "analysis.s3.fetch.error"]
  | .okNoBody =>
    ["analysis.started", "analysis.s3.fetch.start", "analysis.s3.fetch.success",
     "analysis.s3.fetch.error"]
  | .okBody _ =>
    match env.ai with
    | .fail =>
      ["analysis.started", "analysis.s3.fetch.start", "analysis.s3.fetch.success",
       "analysis.ai.request", "analysis.ai.error"]
    | .ok _ =>
      match env.dbGet with
      | .fail =>
        ["analysis.started", "analysis.s3.fetch.start", "analysis.s3.fetch.success",
         "analysis.ai.request", "analysis.ai.success"]
      | .ok _ =>
        if env.dbPutOk then
          ["analysis.started", "analysis.s3.fetch.start", "analysis.s3.fetch.success",
           "analysis.ai.request", "analysis.ai.success", "analysis.db.write",
           "analysis.db.success", "analysis.completed"]
        else
          ["analysis.started", "analysis.s3.fetch.start", "analysis.s3.fetch.success",
           "analysis.ai.request", "analysis.ai.success", "analysis.db.write",
           "analysis.db.error"]

/-- Number of terminal stage events (the success terminal plus the three
failure terminals) in a trace. -/
def terminalCount (evs : List String) : Nat :=
  evs.count "analysis.completed" + evs.count "analysis.s3.fetch.error"
    + evs.count "analysis.ai.error" + evs.count "analysis.db.error"

/-- The one path that throws without emitting any terminal event: the
record-store read failure. -/
def isDbReadFailPath (env : PipeEnv) : Bool :=
  match env.fetch, env.ai, env.dbGet with
  | .okBody _, .ok _, .fail => true
  | _, _, _ => false

/-- Request used by the C6 counterexample. -/
def reqC6 : RequestInput :=
  { key := "uploads/h6.png", scanId := "H6", camera := 1, timestamp := some 1700000000000,
    contentType := "image/png", fileName := some "h6.png", extraFileName := none,
    extraRequestId := none, extraFinalUrl := none }

/-- Inference response used by the C6 counterexample. -/
def respC6 : AiResponse :=
  { id := "resp-6", output_parsed := none, output := none, output_text := some "",
    outputTextParse := none }

/-- All-success collaborator outcomes used by the C6 counterexample. -/
def envC6 : PipeEnv :=
  { fetch := .okBody { timestamp := none, requestId := none, amzRequestId := none },
    ai := .ok respC6, dbGet := .ok none, dbPutOk := true, nowIso := "T1", nowIso2 := "T2" }

/-- Request used by the C7 witness. -/
def reqC7 : RequestInput :=
  { key := "uploads/h7.png", scanId := "H7", camera := 1, timestamp := none,
    contentType := "image/png", fileName := none, extraFileName := none,
    extraRequestId := none, extraFinalUrl := none }

/-- Environment whose fetch returns an object with no body (C7 witness). -/
def envC7 : PipeEnv :=
  { fetch := .okNoBody, ai := .fail, dbGet := .fail, dbPutOk := false,
    nowIso := "T1", nowIso2 := "T2" }

/-- All-success collaborator outcomes around a given response: fetch returns
a body with `meta`, the record store read returns `existing`, the put
succeeds. -/
def envAllOk (meta : S3Meta) (resp : AiResponse) (existing : Option Record) (t u : String) :
    PipeEnv :=
  { fetch := .okBody meta, ai := .ok resp, dbGet := .ok existing, dbPutOk := true,
    nowIso := t, nowIso2 := u }

/-- The record the merge starts from (analyzer.js lines 361-364). -/
def loadedRecord (scanId : String) (existing : Option Record) : Record :=
  match existing with
  | some r => r
  | none => createEmptyRecord scanId

/-- A response every parse path of which fails: no structured payload, one
content item whose text is not valid JSON, and a non-empty output text that
does not parse either (C8 witness). -/
def respC8 : AiResponse :=
  { id := "resp-8", output_parsed := none,
    output := some [{ content := some [{ parsed := none, textParse := some none }] }],
    output_text := some "not json", outputTextParse := none }

/-- Request used by the C8 witness. -/
def reqC8 : RequestInput :=
  { key := "uploads/h8.png", scanId := "H8", camera := 2, timestamp := some 1700000000000,
    contentType := "image/png", fileName := some "h8.png", extraFileName := none,
    extraRequestId := none, extraFinalUrl := none }

/-- S3 metadata used by the C8 witness. -/
def metaC8 : S3Meta := { timestamp := none, requestId := none, amzRequestId := none }

/-- Observation whose detected text holds the numeric pair `5/99`
(denominator above 50), for C9. -/
def obsC9 : Observation :=
  { key := "uploads/h9.png", scanId := "H9", camera := 1, timestamp := some 1700000000000,
    metaTimestamp := none, contentType := "image/png", fileName := some "h9.png",
    extraFileName := none, extraRequestId := none, extraFinalUrl := none,
    metaRequestId := none, metaAmzRequestId := none,
    parsed := some { detected_text := some [some "5/99"], car_name := none, series := none,
                     batch_code := none, subset_number := none, additional_text := none },
    responseId := "resp-9", outputText := "", modelName := "vision-model" }

/-- Analysis fields with an absent AI subset value (C9 witness). -/
def afC9 : AnalysisFields :=
  { carName := "", series := "", batchCode := "", subsetNumber := "", detectedText := [] }

/-- The three coarse statuses the ledger ever assigns. -/
def statusOK (s : String) : Prop := s = "pending" ∨ s = "error" ∨ s = "completed"

/-- Every entry of the ledger carries one of the three statuses. -/
def ledgerOK (l : Ledger) : Prop := ∀ e ∈ l, statusOK e.2.status

/-- A short event sequence (a queued stage, a failure stage, the terminal
stage, and one falsy-identifier event), for the C10 witness. -/
def actsC10 : List (Int × String × EventPayload) :=
  [(0, "H10", { event := "analysis.queued", data := none }),
   (1, "H10", { event := "analysis.s3.fetch.error", data := none }),
   (2, "H10", { event := "analysis.completed", data := some "ok" }),
   (3, "", { event := "analysis.queued", data := none })]

set_option maxHeartbeats 2000000

theorem unknown_jsTrim : jsTrim UNKNOWN_VALUE = UNKNOWN_VALUE := by decide

theorem unknown_ne_empty : UNKNOWN_VALUE ≠ "" := by decide

theorem jsTrim_empty : jsTrim "" = "" := by decide

/-- The placeholder fix never yields the empty string. -/
theorem pf_ne_empty (s : String) : pf s ≠ "" := by
  unfold pf
  by_cases h : jsTrim s = ""
  · simp [h, unknown_ne_empty]
  · simp [h]
    intro he
    exact h (by rw [he]; decide)

/-- The placeholder fix always yields a non-whitespace value. -/
theorem pf_jsTrim_ne (s : String) : jsTrim (pf s) ≠ "" := by
  unfold pf
  by_cases h : jsTrim s = "" <;> simp [h, unknown_jsTrim, unknown_ne_empty]

/-- The placeholder fix is idempotent. -/
theorem pf_pf (s : String) : pf (pf s) = pf s := by
  by_cases h : jsTrim s = ""
  · have h1 : pf s = UNKNOWN_VALUE := by simp [pf, h]
    rw [h1]
    simp [pf, unknown_jsTrim, unknown_ne_empty]
  · have h1 : pf s = s := by simp [pf, h]
    rw [h1, h1]

/-- A guarded write never touches a curated value. -/
theorem mergeField_skip (v x : String) (h1 : x ≠ "") (h2 : x ≠ UNKNOWN_VALUE) :
    mergeField v x = x := by
  unfold mergeField
  rw [if_neg]
  rintro ⟨-, h | h⟩ <;> [exact h1 h; exact h2 h]

/-- A guarded write of the current value is the identity. -/
theorem mergeField_self (v : String) : mergeField v v = v := by
  unfold mergeField
  split <;> rfl

/-- If a guarded write changed the field, the field was empty or the
sentinel. -/
theorem mergeField_changes (v x : String) (h : mergeField v x ≠ x) :
    x = "" ∨ x = UNKNOWN_VALUE := by
  by_contra hc
  push_neg at hc
  exact h (mergeField_skip v x hc.1 hc.2)

/-- Re-running a guarded write followed by the placeholder fix on its own
output is a no-op, provided the starting value is not whitespace-only
(records produced by the engine never hold whitespace-only values in these
fields). -/
theorem mergeFieldRun_stable (v x : String) (hx : jsTrim x = "" → x = "") :
    pf (mergeField v (pf (mergeField v x))) = pf (mergeField v x) := by
  by_cases hv : v = ""
  · have h0 : ∀ y, mergeField v y = y := by
      intro y
      unfold mergeField
      rw [if_neg]
      rintro ⟨hne, -⟩
      exact hne hv
    rw [h0, h0, pf_pf]
  · by_cases hx0 : x = "" ∨ x = UNKNOWN_VALUE
    · have h1 : mergeField v x = v := by
        unfold mergeField
        rw [if_pos ⟨hv, hx0⟩]
      rw [h1]
      by_cases hvt : jsTrim v = ""
      · have hpv : pf v = UNKNOWN_VALUE := by simp [pf, hvt]
        rw [hpv]
        have h2 : mergeField v UNKNOWN_VALUE = v := by
          unfold mergeField
          rw [if_pos ⟨hv, Or.inr rfl⟩]
        rw [h2]
        exact hpv
      · have hpv : pf v = v := by simp [pf, hvt]
        rw [hpv, mergeField_self]
        exact hpv
    · push_neg at hx0
      have h1 : mergeField v x = x := mergeField_skip v x hx0.1 hx0.2
      rw [h1]
      have hxt : jsTrim x ≠ "" := fun hh => hx0.1 (hx hh)
      have hpx : pf x = x := by simp [pf, hxt]
      rw [hpx, h1]
      exact hpx

/-- Re-running a fill-if-unknown followed by the placeholder fix is a no-op
when the fill value is reproducible (`c1 = c2`) or is a usable value. -/
theorem fillRun_stable (x c1 c2 : String) (hx : jsTrim x = "" → x = "")
    (h : c1 = c2 ∨ (jsTrim c1 ≠ "" ∧ c1 ≠ UNKNOWN_VALUE)) :
    pf (fillIfUnknown (pf (fillIfUnknown x c1)) c2) = pf (fillIfUnknown x c1) := by
  by_cases hx0 : x = "" ∨ x = UNKNOWN_VALUE
  · have h1 : fillIfUnknown x c1 = c1 := by
      unfold fillIfUnknown
      rw [if_pos hx0]
    rw [h1]
    rcases h with he | ⟨ht, hu⟩
    · cases he
      by_cases hct : jsTrim c1 = ""
      · have hp : pf c1 = UNKNOWN_VALUE := by simp [pf, hct]
        rw [hp]
        have h2 : fillIfUnknown UNKNOWN_VALUE c1 = c1 := by
          unfold fillIfUnknown
          rw [if_pos (Or.inr rfl)]
        rw [h2]
        exact hp
      · have hp : pf c1 = c1 := by simp [pf, hct]
        rw [hp]
        have h2 : fillIfUnknown c1 c1 = c1 := by
          unfold fillIfUnknown
          split <;> rfl
        rw [h2]
        exact hp
    · have hp : pf c1 = c1 := by simp [pf, ht]
      rw [hp]
      have hc1ne : c1 ≠ "" := fun hh => ht (by rw [hh]; decide)
      have h2 : fillIfUnknown c1 c2 = c1 := by
        unfold fillIfUnknown
        rw [if_neg]
        rintro (hh | hh) <;> [exact hc1ne hh; exact hu hh]
      rw [h2]
      exact hp
  · push_neg at hx0
    have h1 : fillIfUnknown x c1 = x := by
      unfold fillIfUnknown
      rw [if_neg]
      rintro (hh | hh) <;> [exact hx0.1 hh; exact hx0.2 hh]
    rw [h1]
    have hxt : jsTrim x ≠ "" := fun hh => hx0.1 (hx hh)
    have hp : pf x = x := by simp [pf, hxt]
    rw [hp]
    have h2 : fillIfUnknown x c2 = x := by
      unfold fillIfUnknown
      rw [if_neg]
      rintro (hh | hh) <;> [exact hx0.1 hh; exact hx0.2 hh]
    rw [h2]
    exact hp

/-- `x || t1 || t2 = x || t1` whenever `t1` is truthy. -/
theorem jsOrStr_stable (x t1 t2 : String) (h : t1 ≠ "") :
    jsOrStr (jsOrStr x t1) t2 = jsOrStr x t1 := by
  unfold jsOrStr
  by_cases hx : x = "" <;> simp [hx, h]

/-- The `extra`-section update is idempotent for a fixed observation. -/
theorem extraUpdate_idem (e : ExtraSection) (o : Observation) :
    extraUpdate (extraUpdate e o) o = extraUpdate e o := by
  unfold extraUpdate
  rcases hf : o.extraFinalUrl with _ | u
  · by_cases h2 : o.camera = 2
    · simp [hf, h2]
    · by_cases h1 : o.camera = 1
      · simp [hf, h2, h1]
      · simp [hf, h2, h1]
  · by_cases hu : u = ""
    · by_cases h2 : o.camera = 2
      · simp [hf, hu, h2]
      · by_cases h1 : o.camera = 1
        · simp [hf, hu, h2, h1]
        · simp [hf, hu, h2, h1]
    · by_cases h2 : o.camera = 2
      · simp [hf, hu, h2]
      · by_cases h1 : o.camera = 1
        · simp [hf, hu, h2, h1]
        · simp [hf, hu, h2, h1]

theorem mem_nubAux (a : String) :
    ∀ (l seen : List String), a ∈ nubAux seen l ↔ a ∈ l ∧ a ∉ seen := by
  intro l
  induction l with
  | nil => intro seen; simp [nubAux]
  | cons x xs ih =>
    intro seen
    rw [nubAux]
    by_cases h : seen.contains x
    · have hx : x ∈ seen := List.elem_iff.mp h
      rw [if_pos h, ih seen]
      constructor
      · rintro ⟨hm, hs⟩
        exact ⟨List.mem_cons_of_mem x hm, hs⟩
      · rintro ⟨hm, hs⟩
        rcases List.mem_cons.mp hm with he | hm2
        · exact absurd (he ▸ hx) hs
        · exact ⟨hm2, hs⟩
    · have hx : x ∉ seen := fun hc => h (List.elem_iff.mpr hc)
      rw [if_neg h, List.mem_cons, ih (x :: seen)]
      constructor
      · rintro (he | ⟨hm, hs⟩)
        · exact ⟨he ▸ List.mem_cons_self x xs, he ▸ hx⟩
        · rw [List.mem_cons] at hs
          push_neg at hs
          exact ⟨List.mem_cons_of_mem x hm, hs.2⟩
      · rintro ⟨hm, hs⟩
        by_cases hax : a = x
        · exact Or.inl hax
        · rcases List.mem_cons.mp hm with he | hm2
          · exact absurd he hax
          · right
            refine ⟨hm2, ?_⟩
            rw [List.mem_cons]
            push_neg
            exact ⟨hax, hs⟩

theorem nubAux_nil_of_seen :
    ∀ (l seen : List String), (∀ a ∈ l, a ∈ seen) → nubAux seen l = [] := by
  intro l
  induction l with
  | nil => intro seen _; rfl
  | cons x xs ih =>
    intro seen hall
    have hx : seen.contains x := List.elem_iff.mpr (hall x (List.mem_cons_self x xs))
    rw [nubAux, if_pos hx]
    exact ih seen (fun a ha => hall a (List.mem_cons_of_mem x ha))

theorem nubAux_append_of_subset :
    ∀ (xs ys seen : List String), (∀ a ∈ ys, a ∈ xs ∨ a ∈ seen) →
      nubAux seen (xs ++ ys) = nubAux seen xs := by
  intro xs
  induction xs with
  | nil =>
    intro ys seen hsub
    rw [List.nil_append, nubAux]
    exact nubAux_nil_of_seen ys seen (fun a ha => (hsub a ha).resolve_left (by simp))
  | cons x xs ih =>
    intro ys seen hsub
    rw [List.cons_append, nubAux, nubAux]
    by_cases h : seen.contains x
    · rw [if_pos h, if_pos h]
      refine ih ys seen (fun a ha => ?_)
      rcases hsub a ha with hm | hm
      · rcases List.mem_cons.mp hm with he | hm2
        · exact Or.inr (List.elem_iff.mp (he ▸ h))
        · exact Or.inl hm2
      · exact Or.inr hm
    · rw [if_neg h, if_neg h]
      congr 1
      refine ih ys (x :: seen) (fun a ha => ?_)
      rcases hsub a ha with hm | hm
      · rcases List.mem_cons.mp hm with he | hm2
        · exact Or.inr (he ▸ List.mem_cons_self x seen)
        · exact Or.inl hm2
      · exact Or.inr (List.mem_cons_of_mem x hm)

theorem nubAux_idem :
    ∀ (l seen : List String), nubAux seen (nubAux seen l) = nubAux seen l := by
  intro l
  induction l with
  | nil => intro seen; rfl
  | cons x xs ih =>
    intro seen
    rw [nubAux]
    by_cases h : seen.contains x
    · rw [if_pos h]
      exact ih seen
    · rw [if_neg h, nubAux, if_neg h]
      congr 1
      have hstep : nubAux (x :: seen) (nubAux (x :: seen) xs) = nubAux (x :: seen) xs := ih (x :: seen)
      calc nubAux (x :: seen) (nubAux (x :: seen) xs) = nubAux (x :: seen) xs := hstep

/-- Re-building the text pool from its own output adds nothing: the detected
and additional fragments are already members. -/
theorem textPool_stable (rawText : List String) (p : Option ParsedAnalysis) :
    textPoolOf (textPoolOf rawText p) p = textPoolOf rawText p := by
  unfold textPoolOf nubStr
  set dt := detectedTextOf p with hdt
  set at' := additionalTextOf p with hat
  set L := rawText ++ dt ++ at' with hL
  have hsub : ∀ a ∈ dt ++ at', a ∈ nubAux [] L ∨ a ∈ ([] : List String) := by
    intro a ha
    left
    rw [mem_nubAux]
    refine ⟨?_, by simp⟩
    rw [hL, List.append_assoc]
    exact List.mem_append_right rawText ha
  calc nubAux [] (nubAux [] L ++ dt ++ at')
      = nubAux [] (nubAux [] L ++ (dt ++ at')) := by rw [List.append_assoc]
    _ = nubAux [] (nubAux [] L) := nubAux_append_of_subset (nubAux [] L) (dt ++ at') [] hsub
    _ = nubAux [] L := nubAux_idem L []

/-- After a merge the blob key is present among the media keys. -/
theorem mergeMedia_has (l : List MediaEntry) (k : String) (e : MediaEntry) (he : e.s3_key = k) :
    (mergeMedia l k e).any (fun m => m.s3_key == k) = true := by
  unfold mergeMedia
  by_cases h : l.any (fun m => m.s3_key == k)
  · rw [if_pos h]
    exact h
  · rw [if_neg h, List.any_append]
    simp [he]

/-- A merge with an already present blob key leaves the media unchanged. -/
theorem mergeMedia_skip (l : List MediaEntry) (k : String) (e : MediaEntry)
    (h : l.any (fun m => m.s3_key == k) = true) : mergeMedia l k e = l := by
  unfold mergeMedia
  rw [if_pos h]

/-- A merge with an absent blob key appends the entry. -/
theorem mergeMedia_append (l : List MediaEntry) (k : String) (e : MediaEntry)
    (h : l.any (fun m => m.s3_key == k) = false) : mergeMedia l k e = l ++ [e] := by
  unfold mergeMedia
  rw [if_neg (by simp [h])]

/-- Re-merging any entry with the same blob key is a no-op. -/
theorem mergeMedia_stable (l : List MediaEntry) (k : String) (e e' : MediaEntry)
    (he : e.s3_key = k) : mergeMedia (mergeMedia l k e) k e' = mergeMedia l k e :=
  mergeMedia_skip (mergeMedia l k e) k e' (mergeMedia_has l k e he)

theorem goodMap_nil : goodMap [] := ⟨by simp, by simp⟩

theorem mapInsert_good (m : List (String × OcrEntity)) (kv : String × OcrEntity)
    (hm : goodMap m) (hkv : kv.2.text = kv.1) : goodMap (mapInsert m kv) := by
  unfold mapInsert
  by_cases h : m.any (fun p => p.1 == kv.1)
  · rw [if_pos h]
    constructor
    · intro p hp
      rcases List.mem_map.mp hp with ⟨q, hq, hqe⟩
      by_cases hb : q.1 == kv.1
      · rw [← hqe, if_pos hb]
        exact hkv
      · rw [← hqe, if_neg hb]
        exact hm.1 q hq
    · have hkeys : (m.map (fun p => if p.1 == kv.1 then kv else p)).map Prod.fst
          = m.map Prod.fst := by
        rw [List.map_map]
        refine List.map_congr_left (fun p _ => ?_)
        by_cases hb : p.1 == kv.1
        · simp only [Function.comp_apply, if_pos hb]
          exact (eq_of_beq hb).symm
        · simp only [Function.comp_apply, if_neg hb]
      rw [hkeys]
      exact hm.2
  · rw [if_neg h]
    have hfresh : kv.1 ∉ m.map Prod.fst := by
      intro hmem
      rcases List.mem_map.mp hmem with ⟨q, hq, hqe⟩
      have : m.any (fun p => p.1 == kv.1) = true :=
        List.any_eq_true.mpr ⟨q, hq, by simp [hqe]⟩
      exact h this
    constructor
    · intro p hp
      rcases List.mem_append.mp hp with hp1 | hp2
      · exact hm.1 p hp1
      · have : p = kv := by simpa using hp2
        rw [this]
        exact hkv
    · rw [List.map_append]
      refine List.Nodup.append hm.2 (by simp) ?_
      intro a ha hb
      have : a = kv.1 := by simpa using hb
      exact hfresh (this ▸ ha)

theorem foldl_mapInsert_good (es : List OcrEntity) :
    ∀ acc, goodMap acc → goodMap (es.foldl (fun m e => mapInsert m (e.text, e)) acc) := by
  induction es with
  | nil => intro acc hacc; exact hacc
  | cons e es ih =>
    intro acc hacc
    exact ih (mapInsert acc (e.text, e)) (mapInsert_good acc (e.text, e) hacc rfl)

theorem buildEntityMap_good (es : List OcrEntity) : goodMap (buildEntityMap es) :=
  foldl_mapInsert_good es [] goodMap_nil

theorem addDetected_good (ts : List String) :
    ∀ m, goodMap m → goodMap (addDetected m ts) := by
  induction ts with
  | nil => intro m hm; exact hm
  | cons t ts ih =>
    intro m hm
    rw [addDetected, List.foldl_cons]
    by_cases h : t = "" ∨ m.any (fun p => p.1 == t) = true
    · rw [if_pos h]
      exact ih m hm
    · rw [if_neg h]
      push_neg at h
      refine ih _ ⟨?_, ?_⟩
      · intro p hp
        rcases List.mem_append.mp hp with hp1 | hp2
        · exact hm.1 p hp1
        · have : p = (t, { category := "", text := t, confidence := none, side := "" }) := by
            simpa using hp2
          rw [this]
      · rw [List.map_append]
        refine List.Nodup.append hm.2 (by simp) ?_
        intro a ha hb
        have hb2 : a = t := by simpa using hb
        rcases List.mem_map.mp ha with ⟨q, hq, hqe⟩
        have : m.any (fun p => p.1 == t) = true :=
          List.any_eq_true.mpr ⟨q, hq, by simp [hqe, hb2]⟩
        exact absurd this (by simpa using h.2)

theorem addDetected_mono (ts : List String) :
    ∀ m t, m.any (fun p => p.1 == t) = true →
      (addDetected m ts).any (fun p => p.1 == t) = true := by
  induction ts with
  | nil => intro m t h; exact h
  | cons s ts ih =>
    intro m t h
    rw [addDetected, List.foldl_cons]
    by_cases hg : s = "" ∨ m.any (fun p => p.1 == s) = true
    · rw [if_pos hg]
      exact ih m t h
    · rw [if_neg hg]
      refine ih _ t ?_
      rw [List.any_append]
      rw [h]
      rfl

theorem addDetected_has (ts : List String) :
    ∀ m t, t ∈ ts → t ≠ "" → (addDetected m ts).any (fun p => p.1 == t) = true := by
  induction ts with
  | nil => intro m t h; exact absurd h (List.not_mem_nil t)
  | cons s ts ih =>
    intro m t hmem hne
    rw [addDetected, List.foldl_cons]
    by_cases hg : s = "" ∨ m.any (fun p => p.1 == s) = true
    · rw [if_pos hg]
      rcases List.mem_cons.mp hmem with he | hmem2
      · subst he
        rcases hg with hg | hg
        · exact absurd hg hne
        · exact addDetected_mono ts m t hg
      · exact ih m t hmem2 hne
    · rw [if_neg hg]
      rcases List.mem_cons.mp hmem with he | hmem2
      · subst he
        refine addDetected_mono ts _ t ?_
        rw [List.any_append]
        simp
      · exact ih _ t hmem2 hne

theorem addDetected_noop (ts : List String) :
    ∀ m, (∀ t ∈ ts, t = "" ∨ m.any (fun p => p.1 == t) = true) → addDetected m ts = m := by
  induction ts with
  | nil => intro m _; rfl
  | cons s ts ih =>
    intro m hall
    rw [addDetected, List.foldl_cons,
      if_pos (hall s (List.mem_cons_self s ts))]
    exact ih m (fun t ht => hall t (List.mem_cons_of_mem s ht))

theorem foldl_insert_eq :
    ∀ (m acc : List (String × OcrEntity)), (∀ p ∈ m, p.2.text = p.1) →
      ((acc ++ m).map Prod.fst).Nodup →
      List.foldl (fun a e => mapInsert a (e.text, e)) acc (m.map (fun p => p.2)) = acc ++ m := by
  intro m
  induction m with
  | nil => intro acc _ _; simp
  | cons p ps ih =>
    intro acc htext hnodup
    rw [List.map_cons, List.foldl_cons]
    have hp : p.2.text = p.1 := htext p (List.mem_cons_self p ps)
    have hfresh : acc.any (fun q => q.1 == p.1) = false := by
      by_contra hc
      rcases List.any_eq_true.mp (Bool.not_eq_false _ ▸ hc) with ⟨q, hq, hqe⟩
      have hq1 : q.1 = p.1 := by simpa using hqe
      have h1 : p.1 ∈ (acc.map Prod.fst) := List.mem_map.mpr ⟨q, hq, hq1⟩
      have h2 : p.1 ∈ ((p :: ps).map Prod.fst) := by simp
      rw [List.map_append] at hnodup
      exact (List.disjoint_of_nodup_append hnodup) h1 h2
    have hins : mapInsert acc (p.2.text, p.2) = acc ++ [p] := by
      unfold mapInsert
      rw [hp]
      rw [if_neg (by simp [hfresh])]
    have hstep : List.foldl (fun a e => mapInsert a (e.text, e)) (acc ++ [p]) (ps.map (fun p => p.2))
        = (acc ++ [p]) ++ ps := by
      refine ih (acc ++ [p]) (fun q hq => htext q (List.mem_cons_of_mem p hq)) ?_
      have : (acc ++ [p]) ++ ps = acc ++ p :: ps := by simp
      rw [this]
      exact hnodup
    rw [hins, hstep]
    simp

theorem buildEntityMap_values (m : List (String × OcrEntity)) (hm : goodMap m) :
    buildEntityMap (m.map (fun p => p.2)) = m := by
  have h := foldl_insert_eq m [] hm.1 (by simpa using hm.2)
  simpa [buildEntityMap] using h

/-- Re-running the entity union on its own output adds nothing. -/
theorem mergeEntities_stable (es : List OcrEntity) (ts : List String) :
    mergeEntities (mergeEntities es ts) ts = mergeEntities es ts := by
  unfold mergeEntities
  have hgood : goodMap (addDetected (buildEntityMap es) ts) :=
    addDetected_good ts _ (buildEntityMap_good es)
  rw [buildEntityMap_values _ hgood]
  rw [addDetected_noop ts _ ?hall]
  case hall =>
    intro t ht
    by_cases hte : t = ""
    · exact Or.inl hte
    · exact Or.inr (addDetected_has ts _ t ht hte)

theorem recordExt (a b : Record) (h1 : a.id = b.id) (h2 : a.item = b.item)
    (h3 : a.packaging = b.packaging) (h4 : a.codes = b.codes) (h5 : a.branding = b.branding)
    (h6 : a.compliance = b.compliance) (h7 : a.vehicle = b.vehicle) (h8 : a.visual = b.visual)
    (h9 : a.inventory = b.inventory) (h10 : a.ocr = b.ocr) (h11 : a.media = b.media)
    (h12 : a.scan = b.scan) (h13 : a.extra = b.extra) (h14 : a.meta = b.meta) : a = b := by
  cases a
  cases b
  simp_all

theorem itemExt (a b : ItemSection) (h1 : a.line = b.line) (h2 : a.series = b.series)
    (h3 : a.model = b.model) (h4 : a.description = b.description) : a = b := by
  cases a
  cases b
  simp_all

theorem packagingExt (a b : PackagingSection) (h1 : a.global_assortment_number = b.global_assortment_number)
    (h2 : a.subset_number = b.subset_number) (h3 : a.guarantee_badge = b.guarantee_badge)
    (h4 : a.card_front_logo = b.card_front_logo) : a = b := by
  cases a
  cases b
  simp_all

theorem codesExt (a b : CodesSection) (h1 : a.upc = b.upc) (h2 : a.assortment = b.assortment)
    (h3 : a.internal_code = b.internal_code) (h4 : a.batch_code = b.batch_code)
    (h5 : a.country_of_origin = b.country_of_origin) (h6 : a.region = b.region) : a = b := by
  cases a
  cases b
  simp_all

theorem scanExt (a b : ScanSection) (h1 : a.scan_id = b.scan_id)
    (h2 : a.request_id = b.request_id) (h3 : a.scanned_at = b.scanned_at) : a = b := by
  cases a
  cases b
  simp_all

theorem metaExt (a b : MetaSection) (h1 : a.schema_version = b.schema_version)
    (h2 : a.created_at = b.created_at) (h3 : a.updated_at = b.updated_at) : a = b := by
  cases a
  cases b
  simp_all

theorem merge_id (r : Record) (o : Observation) (t u : String) :
    (mergeObservation r o t u).id = r.id := rfl

theorem merge_item_line (r : Record) (o : Observation) (t u : String) :
    (mergeObservation r o t u).item.line = pf r.item.line := rfl

theorem merge_item_description (r : Record) (o : Observation) (t u : String) :
    (mergeObservation r o t u).item.description = pf r.item.description := rfl

theorem merge_item_model (r : Record) (o : Observation) (t u : String) :
    (mergeObservation r o t u).item.model
      = pf (mergeField (carNameOf (analysisFieldsOf o.parsed)) r.item.model) := rfl

theorem merge_item_series (r : Record) (o : Observation) (t u : String) :
    (mergeObservation r o t u).item.series
      = pf (mergeField (seriesOf (analysisFieldsOf o.parsed) (textPoolOf r.ocr.raw_text o.parsed))
          r.item.series) := rfl

theorem merge_packaging_gan (r : Record) (o : Observation) (t u : String) :
    (mergeObservation r o t u).packaging.global_assortment_number
      = pf r.packaging.global_assortment_number := rfl

theorem merge_packaging_subset (r : Record) (o : Observation) (t u : String) :
    (mergeObservation r o t u).packaging.subset_number
      = pf (mergeField (subsetNumberOf (analysisFieldsOf o.parsed) (textPoolOf r.ocr.raw_text o.parsed))
          r.packaging.subset_number) := rfl

theorem merge_packaging_badge (r : Record) (o : Observation) (t u : String) :
    (mergeObservation r o t u).packaging.guarantee_badge = pf r.packaging.guarantee_badge := rfl

theorem merge_packaging_logo (r : Record) (o : Observation) (t u : String) :
    (mergeObservation r o t u).packaging.card_front_logo = pf r.packaging.card_front_logo := rfl

theorem merge_codes_batch (r : Record) (o : Observation) (t u : String) :
    (mergeObservation r o t u).codes.batch_code
      = pf (mergeField (batchCodeOf (analysisFieldsOf o.parsed) (textPoolOf r.ocr.raw_text o.parsed))
          r.codes.batch_code) := rfl

theorem merge_codes_upc (r : Record) (o : Observation) (t u : String) :
    (mergeObservation r o t u).codes.upc = pf r.codes.upc := rfl

theorem merge_codes_assortment (r : Record) (o : Observation) (t u : String) :
    (mergeObservation r o t u).codes.assortment = pf r.codes.assortment := rfl

theorem merge_codes_internal (r : Record) (o : Observation) (t u : String) :
    (mergeObservation r o t u).codes.internal_code = pf r.codes.internal_code := rfl

theorem merge_codes_coo (r : Record) (o : Observation) (t u : String) :
    (mergeObservation r o t u).codes.country_of_origin = pf r.codes.country_of_origin := rfl

theorem merge_codes_region (r : Record) (o : Observation) (t u : String) :
    (mergeObservation r o t u).codes.region = pf r.codes.region := rfl

theorem merge_branding (r : Record) (o : Observation) (t u : String) :
    (mergeObservation r o t u).branding
      = { brand := pf r.branding.brand, websites := r.branding.websites } := rfl

theorem merge_compliance (r : Record) (o : Observation) (t u : String) :
    (mergeObservation r o t u).compliance
      = { age_warning := pf r.compliance.age_warning, standards := r.compliance.standards,
          recycling := pf r.compliance.recycling, warranty := pf r.compliance.warranty,
          warnings := r.compliance.warnings } := rfl

theorem merge_vehicle (r : Record) (o : Observation) (t u : String) :
    (mergeObservation r o t u).vehicle
      = { make := pf r.vehicle.make, base_model := pf r.vehicle.base_model,
          condition := pf r.vehicle.condition } := rfl

theorem merge_visual (r : Record) (o : Observation) (t u : String) :
    (mergeObservation r o t u).visual = r.visual := rfl

theorem merge_inventory (r : Record) (o : Observation) (t u : String) :
    (mergeObservation r o t u).inventory
      = { location := pf r.inventory.location, status := pf r.inventory.status,
          owner := r.inventory.owner } := rfl

theorem merge_raw_text (r : Record) (o : Observation) (t u : String) :
    (mergeObservation r o t u).ocr.raw_text = textPoolOf r.ocr.raw_text o.parsed := rfl

theorem merge_entities (r : Record) (o : Observation) (t u : String) :
    (mergeObservation r o t u).ocr.entities
      = mergeEntities r.ocr.entities (analysisFieldsOf o.parsed).detectedText := rfl

theorem merge_media (r : Record) (o : Observation) (t u : String) :
    (mergeObservation r o t u).media
      = mergeMedia r.media o.key (mediaEntryOf o (capturedIsoOf o u)) := rfl

theorem merge_scan_id (r : Record) (o : Observation) (t u : String) :
    (mergeObservation r o t u).scan.scan_id = o.scanId := rfl

theorem merge_scan_request (r : Record) (o : Observation) (t u : String) :
    (mergeObservation r o t u).scan.request_id
      = pf (fillIfUnknown r.scan.request_id (requestIdOf o)) := rfl

theorem merge_scan_scanned (r : Record) (o : Observation) (t u : String) :
    (mergeObservation r o t u).scan.scanned_at
      = pf (fillIfUnknown r.scan.scanned_at (capturedIsoOf o u)) := rfl

theorem merge_extra (r : Record) (o : Observation) (t u : String) :
    (mergeObservation r o t u).extra = extraUpdate r.extra o := rfl

theorem merge_meta (r : Record) (o : Observation) (t u : String) :
    (mergeObservation r o t u).meta
      = { schema_version := SCHEMA_VERSION, created_at := jsOrStr r.meta.created_at t,
          updated_at := t } := rfl

theorem ocrExt (a b : OcrSection) (h1 : a.raw_text = b.raw_text)
    (h2 : a.entities = b.entities) : a = b := by
  cases a
  cases b
  simp_all

theorem setUA_id (R : Record) (t : String) : (setUpdatedAt R t).id = R.id := rfl

theorem setUA_item (R : Record) (t : String) : (setUpdatedAt R t).item = R.item := rfl

theorem setUA_packaging (R : Record) (t : String) : (setUpdatedAt R t).packaging = R.packaging := rfl

theorem setUA_codes (R : Record) (t : String) : (setUpdatedAt R t).codes = R.codes := rfl

theorem setUA_branding (R : Record) (t : String) : (setUpdatedAt R t).branding = R.branding := rfl

theorem setUA_compliance (R : Record) (t : String) : (setUpdatedAt R t).compliance = R.compliance := rfl

theorem setUA_vehicle (R : Record) (t : String) : (setUpdatedAt R t).vehicle = R.vehicle := rfl

theorem setUA_visual (R : Record) (t : String) : (setUpdatedAt R t).visual = R.visual := rfl

theorem setUA_inventory (R : Record) (t : String) : (setUpdatedAt R t).inventory = R.inventory := rfl

theorem setUA_ocr (R : Record) (t : String) : (setUpdatedAt R t).ocr = R.ocr := rfl

theorem setUA_media (R : Record) (t : String) : (setUpdatedAt R t).media = R.media := rfl

theorem setUA_scan (R : Record) (t : String) : (setUpdatedAt R t).scan = R.scan := rfl

theorem setUA_extra (R : Record) (t : String) : (setUpdatedAt R t).extra = R.extra := rfl

theorem setUA_meta (R : Record) (t : String) :
    (setUpdatedAt R t).meta
      = { schema_version := R.meta.schema_version, created_at := R.meta.created_at,
          updated_at := t } := rfl

/-- C1. Idempotent merge: re-running the merge-and-normalization steps with
the same observation against their own output reproduces that output, with
only `updated_at` re-stamped. -/
theorem merge_idempotent (r : Record) (o : Observation) (t1 u1 t2 u2 : String)
    (hWF : RecordWF r) (ht1 : t1 ≠ "") (hu1t : jsTrim u1 ≠ "") (hu1u : u1 ≠ UNKNOWN_VALUE) :
    mergeObservation (mergeObservation r o t1 u1) o t2 u2
      = setUpdatedAt (mergeObservation r o t1 u1) t2 := by
  obtain ⟨hW1, hW2, hW3, hW4, hW5, hW6⟩ := hWF
  have htp : textPoolOf (mergeObservation r o t1 u1).ocr.raw_text o.parsed
      = textPoolOf r.ocr.raw_text o.parsed := by
    rw [merge_raw_text]
    exact textPool_stable r.ocr.raw_text o.parsed
  have hcap : capturedIsoOf o u1 = capturedIsoOf o u2 ∨
      (jsTrim (capturedIsoOf o u1) ≠ "" ∧ capturedIsoOf o u1 ≠ UNKNOWN_VALUE) := by
    unfold capturedIsoOf
    cases h : (match o.timestamp with | some n => some n | none => o.metaTimestamp) with
    | some n => exact Or.inl rfl
    | none => exact Or.inr ⟨hu1t, hu1u⟩
  apply recordExt
  · rw [setUA_id, merge_id, merge_id]
  · rw [setUA_item]
    apply itemExt
    · rw [merge_item_line, merge_item_line]
      exact pf_pf _
    · rw [merge_item_series, htp, merge_item_series]
      exact mergeFieldRun_stable _ _ hW2
    · rw [merge_item_model, merge_item_model]
      exact mergeFieldRun_stable _ _ hW1
    · rw [merge_item_description, merge_item_description]
      exact pf_pf _
  · rw [setUA_packaging]
    apply packagingExt
    · rw [merge_packaging_gan, merge_packaging_gan]
      exact pf_pf _
    · rw [merge_packaging_subset, htp, merge_packaging_subset]
      exact mergeFieldRun_stable _ _ hW4
    · rw [merge_packaging_badge, merge_packaging_badge]
      exact pf_pf _
    · rw [merge_packaging_logo, merge_packaging_logo]
      exact pf_pf _
  · rw [setUA_codes]
    apply codesExt
    · rw [merge_codes_upc, merge_codes_upc]
      exact pf_pf _
    · rw [merge_codes_assortment, merge_codes_assortment]
      exact pf_pf _
    · rw [merge_codes_internal, merge_codes_internal]
      exact pf_pf _
    · rw [merge_codes_batch, htp, merge_codes_batch]
      exact mergeFieldRun_stable _ _ hW3
    · rw [merge_codes_coo, merge_codes_coo]
      exact pf_pf _
    · rw [merge_codes_region, merge_codes_region]
      exact pf_pf _
  · rw [setUA_branding]
    simp only [merge_branding, pf_pf]
  · rw [setUA_compliance]
    simp only [merge_compliance, pf_pf]
  · rw [setUA_vehicle]
    simp only [merge_vehicle, pf_pf]
  · rw [setUA_visual, merge_visual, merge_visual]
  · rw [setUA_inventory]
    simp only [merge_inventory, pf_pf]
  · rw [setUA_ocr]
    apply ocrExt
    · rw [merge_raw_text, merge_raw_text]
      exact textPool_stable _ _
    · rw [merge_entities, merge_entities]
      exact mergeEntities_stable _ _
  · rw [setUA_media, merge_media, merge_media]
    exact mergeMedia_stable _ _ _ _ rfl
  · rw [setUA_scan]
    apply scanExt
    · rw [merge_scan_id, merge_scan_id]
    · rw [merge_scan_request, merge_scan_request]
      exact fillRun_stable _ _ _ hW6 (Or.inl rfl)
    · rw [merge_scan_scanned, merge_scan_scanned]
      exact fillRun_stable _ _ _ hW5 hcap
  · rw [setUA_extra, merge_extra, merge_extra]
    exact extraUpdate_idem _ _
  · rw [setUA_meta]
    apply metaExt
    · rw [merge_meta, merge_meta]
    · rw [merge_meta, merge_meta]
      simp only
      exact jsOrStr_stable _ _ _ ht1
    · rw [merge_meta]

/-- Witness for C1 at a concrete record and observation. -/
theorem merge_idempotent_witness :
    RecordWF (createEmptyRecord "H10011") ∧ ("2024-01-01T00:00:00.000Z" : String) ≠ "" ∧
    jsTrim "2024-01-01T00:00:00.500Z" ≠ "" ∧ "2024-01-01T00:00:00.500Z" ≠ UNKNOWN_VALUE ∧
    mergeObservation
        (mergeObservation (createEmptyRecord "H10011") obsW "2024-01-01T00:00:00.000Z"
          "2024-01-01T00:00:00.500Z") obsW "2024-01-01T00:01:00.000Z" "2024-01-01T00:01:00.500Z"
      = setUpdatedAt
          (mergeObservation (createEmptyRecord "H10011") obsW "2024-01-01T00:00:00.000Z"
            "2024-01-01T00:00:00.500Z") "2024-01-01T00:01:00.000Z" :=
  ⟨⟨fun _ => rfl, fun _ => rfl, fun _ => rfl, fun _ => rfl, fun _ => rfl, fun _ => rfl⟩,
   by decide, by decide, by decide,
   merge_idempotent (createEmptyRecord "H10011") obsW "2024-01-01T00:00:00.000Z"
     "2024-01-01T00:00:00.500Z" "2024-01-01T00:01:00.000Z" "2024-01-01T00:01:00.500Z"
     ⟨fun _ => rfl, fun _ => rfl, fun _ => rfl, fun _ => rfl, fun _ => rfl, fun _ => rfl⟩
     (by decide) (by decide) (by decide)⟩

/-- C2 (amended): every record the engine produces satisfies the placeholder
invariant on the 25 declared placeholder paths: each such leaf is a
non-empty, non-whitespace value or the sentinel. String leaves outside the
`placeholderPaths` list (for example `inventory.owner` and the `visual`
leaves) are not covered. -/
theorem merge_placeholder_invariant (r : Record) (o : Observation) (t u : String) :
    placeholderInvariant (mergeObservation r o t u) := by
  unfold placeholderInvariant
  refine ⟨?_, ?_, ?_, ?_, ?_, ?_, ?_, ?_, ?_, ?_, ?_, ?_, ?_, ?_, ?_, ?_, ?_, ?_, ?_, ?_, ?_,
    ?_, ?_, ?_, ?_⟩ <;>
    simp only [merge_item_line, merge_item_series, merge_item_model, merge_item_description,
      merge_packaging_gan, merge_packaging_subset, merge_packaging_badge, merge_packaging_logo,
      merge_codes_upc, merge_codes_assortment, merge_codes_internal, merge_codes_batch,
      merge_codes_coo, merge_codes_region, merge_branding, merge_compliance, merge_vehicle,
      merge_inventory, merge_scan_request, merge_scan_scanned] <;>
    exact pf_jsTrim_ne _

/-- C2 counterexample: the engine produces a record whose declared string
leaf `inventory.owner` is the empty string — neither a non-empty value nor
the sentinel — because `inventory.owner` is missing from
`placeholderPaths`. -/
theorem placeholder_counterexample :
    (mergeObservation (createEmptyRecord "H1") obsC2 "T1" "T2").inventory.owner = "" ∧
    ¬(("" : String) ≠ "" ∨ ("" : String) = UNKNOWN_VALUE) := by
  constructor
  · decide
  · decide

/-- C3. Non-overwrite rule over the four extraction-target fields
(analyzer.js lines 427-441): a curated value (non-empty, not the sentinel)
is never changed by the heuristic-extraction/AI-field writes, and a field
those writes do change was empty or the sentinel. -/
theorem non_overwrite (r : Record) (carName series batchCode subsetNumber : String) :
    ((r.item.model ≠ "" ∧ r.item.model ≠ UNKNOWN_VALUE) →
      (applyExtractions r carName series batchCode subsetNumber).item.model = r.item.model) ∧
    ((r.item.series ≠ "" ∧ r.item.series ≠ UNKNOWN_VALUE) →
      (applyExtractions r carName series batchCode subsetNumber).item.series = r.item.series) ∧
    ((r.codes.batch_code ≠ "" ∧ r.codes.batch_code ≠ UNKNOWN_VALUE) →
      (applyExtractions r carName series batchCode subsetNumber).codes.batch_code
        = r.codes.batch_code) ∧
    ((r.packaging.subset_number ≠ "" ∧ r.packaging.subset_number ≠ UNKNOWN_VALUE) →
      (applyExtractions r carName series batchCode subsetNumber).packaging.subset_number
        = r.packaging.subset_number) ∧
    ((applyExtractions r carName series batchCode subsetNumber).item.model ≠ r.item.model →
      r.item.model = "" ∨ r.item.model = UNKNOWN_VALUE) ∧
    ((applyExtractions r carName series batchCode subsetNumber).item.series ≠ r.item.series →
      r.item.series = "" ∨ r.item.series = UNKNOWN_VALUE) ∧
    ((applyExtractions r carName series batchCode subsetNumber).codes.batch_code
        ≠ r.codes.batch_code →
      r.codes.batch_code = "" ∨ r.codes.batch_code = UNKNOWN_VALUE) ∧
    ((applyExtractions r carName series batchCode subsetNumber).packaging.subset_number
        ≠ r.packaging.subset_number →
      r.packaging.subset_number = "" ∨ r.packaging.subset_number = UNKNOWN_VALUE) := by
  refine ⟨fun h => ?_, fun h => ?_, fun h => ?_, fun h => ?_,
    fun h => ?_, fun h => ?_, fun h => ?_, fun h => ?_⟩
  · exact mergeField_skip carName r.item.model h.1 h.2
  · exact mergeField_skip series r.item.series h.1 h.2
  · exact mergeField_skip batchCode r.codes.batch_code h.1 h.2
  · exact mergeField_skip subsetNumber r.packaging.subset_number h.1 h.2
  · exact mergeField_changes carName r.item.model h
  · exact mergeField_changes series r.item.series h
  · exact mergeField_changes batchCode r.codes.batch_code h
  · exact mergeField_changes subsetNumber r.packaging.subset_number h

/-- Witness for C3: a record with curated values keeps them across the
extraction writes. -/
theorem non_overwrite_witness :
    (recC3.item.model ≠ "" ∧ recC3.item.model ≠ UNKNOWN_VALUE) ∧
    (applyExtractions recC3 "Other Car" "Other Series" "OTHER-1" "9/10").item.model
      = recC3.item.model ∧
    (applyExtractions recC3 "Other Car" "Other Series" "OTHER-1" "9/10").packaging.subset_number
      = recC3.packaging.subset_number :=
  ⟨by decide,
   (non_overwrite recC3 "Other Car" "Other Series" "OTHER-1" "9/10").1 (by decide),
   (non_overwrite recC3 "Other Car" "Other Series" "OTHER-1" "9/10").2.2.2.1 (by decide)⟩

/-- C4. Media dedup: merging a capture whose blob key is already among the
record's media keys leaves `media` unchanged; consequently two captures
with the same blob key yield exactly one media entry for that key. -/
theorem media_dedup (r : Record) (o o' : Observation) (t u t' u' : String) :
    (r.media.any (fun m => m.s3_key == o.key) = true →
      (mergeObservation r o t u).media = r.media) ∧
    (o'.key = o.key → (∀ m ∈ r.media, m.s3_key ≠ o.key) →
      (((mergeObservation (mergeObservation r o t u) o' t' u').media.filter
          (fun m => m.s3_key == o.key)).length = 1)) := by
  constructor
  · intro h
    rw [merge_media]
    exact mergeMedia_skip r.media o.key _ h
  · intro hk hnone
    have habs : r.media.any (fun m => m.s3_key == o.key) = false := by
      by_contra hc
      rcases List.any_eq_true.mp (Bool.not_eq_false _ ▸ hc) with ⟨m, hm, hb⟩
      exact hnone m hm (by simpa using hb)
    rw [merge_media, merge_media, hk]
    rw [mergeMedia_append r.media o.key _ habs]
    rw [mergeMedia_skip _ o.key _ (by
      rw [List.any_append]
      simp [mediaEntryOf])]
    rw [List.filter_append]
    have hfirst : r.media.filter (fun m => m.s3_key == o.key) = [] := by
      rw [List.filter_eq_nil_iff]
      intro m hm
      simpa using hnone m hm
    rw [hfirst]
    simp [mediaEntryOf]

/-- Witness for C4: two captures of the same blob key on a fresh record
produce exactly one media entry for it. -/
theorem media_dedup_witness :
    (obsC4b.key = obsC4.key ∧ ∀ m ∈ (createEmptyRecord "H3").media, m.s3_key ≠ obsC4.key) ∧
    (((mergeObservation (mergeObservation (createEmptyRecord "H3") obsC4 "T1" "T2") obsC4b "T3"
        "T4").media.filter (fun m => m.s3_key == obsC4.key)).length = 1) :=
  ⟨⟨rfl, by decide⟩,
   (media_dedup (createEmptyRecord "H3") obsC4 obsC4b "T1" "T2" "T3" "T4").2 rfl (by decide)⟩

theorem pruneGo_mem (cutoff : Int) :
    ∀ (l : Ledger) (kept : Nat) (e : String × OpEntry), e ∈ pruneGo cutoff kept l → e ∈ l := by
  intro l
  induction l with
  | nil => intro kept e h; exact absurd h (List.not_mem_nil e)
  | cons x xs ih =>
    intro kept e h
    rw [pruneGo] at h
    by_cases hg : x.2.updatedAt < cutoff ∨ kept + 1 + xs.length > MAX_OPERATIONS * 2
    · rw [if_pos hg] at h
      exact List.mem_cons_of_mem x (ih kept e h)
    · rw [if_neg hg] at h
      rcases List.mem_cons.mp h with he | hm
      · exact he ▸ List.mem_cons_self x xs
      · exact List.mem_cons_of_mem x (ih (kept + 1) e hm)

theorem pruneGo_ttl (cutoff : Int) :
    ∀ (l : Ledger) (kept : Nat) (e : String × OpEntry),
      e ∈ pruneGo cutoff kept l → cutoff ≤ e.2.updatedAt := by
  intro l
  induction l with
  | nil => intro kept e h; exact absurd h (List.not_mem_nil e)
  | cons x xs ih =>
    intro kept e h
    rw [pruneGo] at h
    by_cases hg : x.2.updatedAt < cutoff ∨ kept + 1 + xs.length > MAX_OPERATIONS * 2
    · rw [if_pos hg] at h
      exact ih kept e h
    · rw [if_neg hg] at h
      push_neg at hg
      rcases List.mem_cons.mp h with he | hm
      · exact he ▸ hg.1
      · exact ih (kept + 1) e hm

theorem pruneGo_length (cutoff : Int) :
    ∀ (l : Ledger) (kept : Nat),
      (pruneGo cutoff kept l).length + kept ≤ max (MAX_OPERATIONS * 2) kept := by
  intro l
  induction l with
  | nil => intro kept; simp [pruneGo]
  | cons x xs ih =>
    intro kept
    rw [pruneGo]
    by_cases hg : x.2.updatedAt < cutoff ∨ kept + 1 + xs.length > MAX_OPERATIONS * 2
    · rw [if_pos hg]
      exact ih kept
    · rw [if_neg hg]
      push_neg at hg
      have hsz : kept + 1 ≤ MAX_OPERATIONS * 2 := by
        have := hg.2
        omega
      have := ih (kept + 1)
      rw [List.length_cons]
      omega

/-- C5 (amended): `pruneOperations` removes exactly the entries older than
the TTL cutoff plus enough earliest-inserted entries to bring the table to
at most twice the ceiling: afterwards every surviving entry is within the
TTL and the ledger holds at most `MAX_OPERATIONS * 2 = 100` entries (not
`MAX_OPERATIONS = 50`). -/
theorem prune_contract (now : Int) (ops : Ledger) :
    ((pruneOperations now ops).all (fun e => now - OPERATION_TTL_MS ≤ e.2.updatedAt) = true) ∧
    (pruneOperations now ops).length ≤ MAX_OPERATIONS * 2 := by
  constructor
  · rw [List.all_eq_true]
    intro e he
    simpa using pruneGo_ttl (now - OPERATION_TTL_MS) ops 0 e he
  · have := pruneGo_length (now - OPERATION_TTL_MS) ops 0
    simpa [pruneOperations] using this

/-- C5 counterexample: pruning 101 fresh entries leaves 100 — the loop only
deletes while the table exceeds `MAX_OPERATIONS * 2`, so the ledger exceeds
the claimed ceiling of 50 after a prune. -/
theorem prune_ceiling_counterexample :
    (pruneOperations 0 opsC5).length = 100 ∧
    ¬((pruneOperations 0 opsC5).length ≤ MAX_OPERATIONS) := by
  constructor
  · decide
  · decide

/-- C6 (amended): per invocation the emitted stage names are exactly the
execution-order enumeration `expectedTrace`; every trace contains exactly
one terminal stage except the record-store read failure, which has none;
and the `upload_complete` session handler emits its own additional
`analysis.completed` after the pipeline's, so a subscriber sees the success
terminal twice for one successful invocation (and a generic `error` status
event after a failed one). -/
theorem event_ordering_amended (req : RequestInput) (cfgModel : String) (env : PipeEnv) :
    (analyzeAndStore req cfgModel env).events = expectedTrace env ∧
    terminalCount (analyzeAndStore req cfgModel env).events
      = (if isDbReadFailPath env then 0 else 1) ∧
    (uploadCompleteEvents req cfgModel env).count "analysis.completed"
      = (match (analyzeAndStore req cfgModel env).outcome with
         | .ok _ => 2
         | .error _ => 0) := by
  obtain ⟨f, a, g, p, n1, n2⟩ := env
  cases f <;> cases a <;> cases g <;> cases p <;> exact ⟨rfl, rfl, rfl⟩

/-- C6 counterexample: on a successful `upload_complete` invocation the
subscriber receives the `analysis.completed` stage twice (once from the
pipeline, once from the session handler), so the sequence does not end in
exactly one terminal success event. -/
theorem event_ordering_counterexample :
    (uploadCompleteEvents reqC6 "vision-model" envC6).count "analysis.completed" = 2 ∧
    ¬((uploadCompleteEvents reqC6 "vision-model" envC6).count "analysis.completed" = 1) := by
  constructor
  · decide
  · decide

/-- C7. Fetch-failure atomicity: when the blob fetch fails in transport or
returns no body, the invocation ends with a fetch-error status event,
throws (a 404-marked not-found error for the missing body, distinct from
the transport error), and neither reads nor writes the record store. -/
theorem fetch_failure_atomicity (req : RequestInput) (cfgModel : String) (env : PipeEnv)
    (h : env.fetch = .transportFail ∨ env.fetch = .okNoBody) :
    (analyzeAndStore req cfgModel env).events.getLast? = some "analysis.s3.fetch.error" ∧
    (analyzeAndStore req cfgModel env).dbRead = false ∧
    (analyzeAndStore req cfgModel env).dbWrite = false ∧
    (analyzeAndStore req cfgModel env).stored = none ∧
    (env.fetch = .okNoBody →
      (analyzeAndStore req cfgModel env).outcome = .error .fetchNoBody404) ∧
    (env.fetch = .transportFail →
      (analyzeAndStore req cfgModel env).outcome = .error .fetchTransport) ∧
    PipeErr.fetchNoBody404 ≠ PipeErr.fetchTransport := by
  rcases hf : env.fetch with _ | _ | meta
  · simp [analyzeAndStore, hf]
  · simp [analyzeAndStore, hf]
  · exfalso
    rcases h with h | h <;> rw [hf] at h <;> exact absurd h (by simp)

/-- Witness for C7 at the missing-body outcome. -/
theorem fetch_failure_atomicity_witness :
    (envC7.fetch = .transportFail ∨ envC7.fetch = .okNoBody) ∧
    ((analyzeAndStore reqC7 "vision-model" envC7).events.getLast?
        = some "analysis.s3.fetch.error" ∧
      (analyzeAndStore reqC7 "vision-model" envC7).dbRead = false ∧
      (analyzeAndStore reqC7 "vision-model" envC7).dbWrite = false ∧
      (analyzeAndStore reqC7 "vision-model" envC7).stored = none ∧
      (envC7.fetch = .okNoBody →
        (analyzeAndStore reqC7 "vision-model" envC7).outcome = .error .fetchNoBody404) ∧
      (envC7.fetch = .transportFail →
        (analyzeAndStore reqC7 "vision-model" envC7).outcome = .error .fetchTransport) ∧
      PipeErr.fetchNoBody404 ≠ PipeErr.fetchTransport) :=
  ⟨Or.inr rfl, fetch_failure_atomicity reqC7 "vision-model" envC7 (Or.inr rfl)⟩

/-- C8. Parse-failure degradation: structured extraction is attempted first
(a direct parsed payload wins), then the textual output is parsed; and when
every parse fails the invocation still completes, merging and persisting an
empty observation set (no detected text, all extracted fields empty). -/
theorem parse_degradation (resp : AiResponse) :
    (∀ p, resp.output_parsed = some p → parsedAnalysisOf resp = some p) ∧
    (structuredParseOf resp = none →
      parsedAnalysisOf resp = (if outputTextOf resp ≠ "" then resp.outputTextParse else none)) ∧
    (∀ (req : RequestInput) (cfgModel : String) (meta : S3Meta) (existing : Option Record)
        (t u : String), parsedAnalysisOf resp = none →
      (analyzeAndStore req cfgModel (envAllOk meta resp existing t u)).outcome
          = .ok { id := req.scanId, key := req.key, scanId := req.scanId, modelName := cfgModel,
                  responseId := resp.id,
                  record := mergeObservation (loadedRecord req.scanId existing)
                    (observationOf req meta resp cfgModel none) t u,
                  analysis := none, raw := outputTextOf resp, storedAt := t } ∧
        (analyzeAndStore req cfgModel (envAllOk meta resp existing t u)).dbWrite = true ∧
        (analyzeAndStore req cfgModel (envAllOk meta resp existing t u)).stored
          = some (mergeObservation (loadedRecord req.scanId existing)
              (observationOf req meta resp cfgModel none) t u) ∧
        detectedTextOf none = [] ∧
        analysisFieldsOf none
          = { carName := "", series := "", batchCode := "", subsetNumber := "",
              detectedText := [] }) := by
  refine ⟨?_, ?_, ?_⟩
  · intro p hp
    unfold parsedAnalysisOf structuredParseOf
    rw [hp]
  · intro h
    unfold parsedAnalysisOf
    rw [h]
  · intro req cfgModel meta existing t u h
    cases existing <;>
      exact ⟨by simp [analyzeAndStore, envAllOk, loadedRecord, h], by rfl,
        by simp [analyzeAndStore, envAllOk, loadedRecord, h], rfl, rfl⟩

/-- Witness for C8: with every parse failing, the invocation still persists
and completes with the empty observation set. -/
theorem parse_degradation_witness :
    parsedAnalysisOf respC8 = none ∧
    (analyzeAndStore reqC8 "vision-model" (envAllOk metaC8 respC8 none "T1" "T2")).outcome
        = .ok { id := "H8", key := "uploads/h8.png", scanId := "H8", modelName := "vision-model",
                responseId := "resp-8",
                record := mergeObservation (loadedRecord "H8" none)
                  (observationOf reqC8 metaC8 respC8 "vision-model" none) "T1" "T2",
                analysis := none, raw := "not json", storedAt := "T1" } ∧
    (analyzeAndStore reqC8 "vision-model" (envAllOk metaC8 respC8 none "T1" "T2")).dbWrite
      = true := by
  have h := (parse_degradation respC8).2.2 reqC8 "vision-model" metaC8 none "T1" "T2" (by decide)
  exact ⟨by decide, by rw [h.1]; rfl, h.2.1⟩

/-- C9 counterexample: the pool matches the numeric pair `5/99`, whose
denominator exceeds 50, yet the merge assigns it to neither
`packaging.subset_number` nor `packaging.global_assortment_number` — the
code has no global-assortment extractor at all, so the claimed two-way
split does not happen. -/
theorem numeric_pair_counterexample :
    findMultipleMatchesPairs
        (textPoolOf (createEmptyRecord "H9").ocr.raw_text obsC9.parsed) = ["5/99"] ∧
    (mergeObservation (createEmptyRecord "H9") obsC9 "T1" "T2").packaging.global_assortment_number
      = UNKNOWN_VALUE ∧
    (mergeObservation (createEmptyRecord "H9") obsC9 "T1" "T2").packaging.subset_number
      = UNKNOWN_VALUE := by
  refine ⟨by decide, by decide, by decide⟩

/-- C9 (amended): a merge never writes
`packaging.global_assortment_number` (the placeholder pass only normalizes
it); the numeric-pair extractor only targets `packaging.subset_number`,
choosing a matched pair whose denominator is at most 50 whenever the AI
field is absent, and choosing nothing when every matched pair's denominator
exceeds 50. -/
theorem numeric_pair_split_amended (r : Record) (o : Observation) (t u : String) :
    ((mergeObservation r o t u).packaging.global_assortment_number
      = pf r.packaging.global_assortment_number) ∧
    (∀ (af : AnalysisFields) (tp : List String),
      (af.subsetNumber = "" ∨ af.subsetNumber = UNKNOWN_VALUE) →
      ((subsetNumberOf af tp ≠ "" →
          subsetNumberOf af tp ∈ findMultipleMatchesPairs tp ∧
          denomLE50 (subsetNumberOf af tp) = true) ∧
        ((∀ m ∈ findMultipleMatchesPairs tp, denomLE50 m = false) →
          subsetNumberOf af tp = ""))) := by
  refine ⟨merge_packaging_gan r o t u, ?_⟩
  intro af tp haf
  have hcond : ¬(af.subsetNumber ≠ "" ∧ af.subsetNumber ≠ UNKNOWN_VALUE) := by
    rintro ⟨h1, h2⟩
    rcases haf with h | h <;> [exact h1 h; exact h2 h]
  constructor
  · intro hne
    unfold subsetNumberOf at hne ⊢
    rw [if_neg hcond] at hne ⊢
    cases hfind : (findMultipleMatchesPairs tp).find? denomLE50 with
    | some m =>
      exact ⟨List.mem_of_find?_eq_some hfind, List.find?_some hfind⟩
    | none =>
      rw [hfind] at hne
      exact absurd rfl hne
  · intro hall
    unfold subsetNumberOf
    rw [if_neg hcond]
    have : (findMultipleMatchesPairs tp).find? denomLE50 = none := by
      rw [List.find?_eq_none]
      intro m hm
      simp [hall m hm]
    rw [this]
    rfl

/-- Witness for C9 (amended) at a concrete pool containing `4/10`. -/
theorem numeric_pair_split_witness :
    ((mergeObservation (createEmptyRecord "H9") obsC9 "T1" "T2").packaging.global_assortment_number
      = pf (createEmptyRecord "H9").packaging.global_assortment_number) ∧
    (afC9.subsetNumber = "" ∨ afC9.subsetNumber = UNKNOWN_VALUE) ∧
    subsetNumberOf afC9 ["4/10"] ≠ "" ∧
    (subsetNumberOf afC9 ["4/10"] ∈ findMultipleMatchesPairs ["4/10"] ∧
      denomLE50 (subsetNumberOf afC9 ["4/10"]) = true) :=
  ⟨(numeric_pair_split_amended (createEmptyRecord "H9") obsC9 "T1" "T2").1,
   Or.inl rfl, by decide,
   (((numeric_pair_split_amended (createEmptyRecord "H9") obsC9 "T1" "T2").2 afC9 ["4/10"]
       (Or.inl rfl)).1 (by decide))⟩

theorem ledgerOK_prune (now : Int) (ops : Ledger) (h : ledgerOK ops) :
    ledgerOK (pruneOperations now ops) :=
  fun e he => h e (pruneGo_mem (now - OPERATION_TTL_MS) ops 0 e he)

theorem ledgerOK_set (ops : Ledger) (scan : String) (entry : OpEntry)
    (h : ledgerOK ops) (he : statusOK entry.status) : ledgerOK (ledgerSet ops scan entry) := by
  unfold ledgerSet
  by_cases hc : ops.any (fun p => p.1 == scan)
  · rw [if_pos hc]
    intro e hme
    rcases List.mem_map.mp hme with ⟨q, hq, hqe⟩
    by_cases hb : q.1 == scan
    · rw [← hqe, if_pos hb]
      exact he
    · rw [← hqe, if_neg hb]
      exact h q hq
  · rw [if_neg hc]
    intro e hme
    rcases List.mem_append.mp hme with h1 | h2
    · exact h e h1
    · have : e = (scan, entry) := by simpa using h2
      rw [this]
      exact he

theorem statusOK_lookup (ops1 : Ledger) (scan : String) (now : Int) (h : ledgerOK ops1) :
    statusOK ((ledgerGet ops1 scan).getD
      { scan := scan, events := [], status := "pending", updatedAt := now,
        result := none }).status := by
  unfold ledgerGet
  cases hfind : ops1.find? (fun p => p.1 == scan) with
  | some q =>
    simp only [hfind, Option.map_some', Option.getD_some]
    exact h q (List.mem_of_find?_eq_some hfind)
  | none =>
    simp only [hfind, Option.map_none', Option.getD_none]
    exact Or.inl rfl

theorem ledgerOK_record (now : Int) (scan : String) (ev : EventPayload) (ops : Ledger)
    (h : ledgerOK ops) : ledgerOK (recordOperationEvent now scan ev ops) := by
  unfold recordOperationEvent
  by_cases hs : scan = ""
  · rw [if_pos hs]
    exact h
  · rw [if_neg hs]
    refine ledgerOK_set _ scan _ (ledgerOK_prune now ops h) ?_
    by_cases hev : ev.event = "analysis.completed"
    · simp only [if_pos hev]
      exact Or.inr (Or.inr rfl)
    · simp only [if_neg hev]
      by_cases herr : strIncludes ev.event "error"
      · simp only [if_pos herr]
        exact Or.inr (Or.inl rfl)
      · simp only [if_neg herr]
        exact statusOK_lookup (pruneOperations now ops) scan now (ledgerOK_prune now ops h)

theorem ledgerOK_foldl (acts : List (Int × String × EventPayload)) :
    ∀ init, ledgerOK init →
      ledgerOK (acts.foldl (fun l a => recordOperationEvent a.1 a.2.1 a.2.2 l) init) := by
  induction acts with
  | nil => intro init h; exact h
  | cons a as ih =>
    intro init h
    rw [List.foldl_cons]
    exact ih _ (ledgerOK_record a.1 a.2.1 a.2.2 init h)

/-- C10. Ledger coarse statuses: after any sequence of recorded events every
entry's status is `pending`, `error` or `completed` — `in-progress` is never
assigned — and recording under a falsy identifier leaves the ledger
unchanged. -/
theorem ledger_status_invariant (acts : List (Int × String × EventPayload)) (init : Ledger)
    (h : ledgerOK init) :
    ledgerOK (acts.foldl (fun l a => recordOperationEvent a.1 a.2.1 a.2.2 l) init) ∧
    (∀ e ∈ acts.foldl (fun l a => recordOperationEvent a.1 a.2.1 a.2.2 l) init,
      e.2.status ≠ "in-progress") ∧
    (∀ (now : Int) (ev : EventPayload) (l : Ledger), recordOperationEvent now "" ev l = l) := by
  have hfold := ledgerOK_foldl acts init h
  refine ⟨hfold, ?_, ?_⟩
  · intro e he
    rcases hfold e he with h1 | h1 | h1 <;> rw [h1] <;> decide
  · intro now ev l
    unfold recordOperationEvent
    rw [if_pos rfl]

/-- Witness for C10 on a concrete event sequence over the empty ledger. -/
theorem ledger_status_invariant_witness :
    ledgerOK ([] : Ledger) ∧
    (ledgerOK (actsC10.foldl (fun l a => recordOperationEvent a.1 a.2.1 a.2.2 l) []) ∧
      (∀ e ∈ actsC10.foldl (fun l a => recordOperationEvent a.1 a.2.1 a.2.2 l) [],
        e.2.status ≠ "in-progress") ∧
      (∀ (now : Int) (ev : EventPayload) (l : Ledger), recordOperationEvent now "" ev l = l)) :=
  ⟨fun e he => absurd he (List.not_mem_nil e),
   ledger_status_invariant actsC10 [] (fun e he => absurd he (List.not_mem_nil e))⟩
